import Mathlib

/-!
Shallow embedding of the zenja/nes emulator core (cartridge/mapper, joypad,
PPU, bus, CPU interpreter), with theorems settling the frozen claims about
its natural-language specification.  Machine integers are embedded as `Nat`
with explicit wrap (`% 256`, `% 65536`, `% 2^32`) exactly where the source
uses wrapping operations; a plain Rust `+= / -=` on an unsigned integer is
embedded strictly (an overflow yields `none`, the embedding of a panic).
Rust `Vec` indexing is embedded through `List.get?`, so an out-of-bounds
index also yields `none`; fixed-size arrays whose indices are masked to the
array size in the source are embedded as total functions.
-/

set_option linter.unusedVariables false
set_option maxRecDepth 8000

namespace Nes

/-- Wrap-around of an 8-bit addition, the embedding of `u8::wrapping_add`. -/
def u8wrapAdd (a b : Nat) : Nat := (a + b) % 256

/-- Wrap-around of an 8-bit subtraction, the embedding of `u8::wrapping_sub`. -/
def u8wrapSub (a b : Nat) : Nat := (a + 256 - b % 256) % 256

/-- Wrap-around of a 16-bit addition, the embedding of `u16::wrapping_add`. -/
def u16wrapAdd (a b : Nat) : Nat := (a + b) % 65536

/-- The modulus of the 32-bit counters (`u32::wrapping_add`). -/
def U32MOD : Nat := 4294967296

/-- Embedding of `Mirror` from src/cartridge.rs. -/
inductive Mirror where
  | vertical
  | horizontal
  | fourScreen
deriving DecidableEq

/-- Embedding of `Mapper0` from src/mapper/mapper_0.rs. -/
structure Mapper0 where
  numPrgBanks : Nat
  numChrBanks : Nat
deriving DecidableEq

/-- Embedding of `Mapper0::cpu_read_mapping`: $8000-$FFFF maps to a PRG-ROM
offset, masked with $7FFF (two banks) or $3FFF (one bank).  The source's
`(u16, bool)` return is embedded as `Option`, which is how `Cartridge`
consumes the `Mapper` trait. -/
def Mapper0.cpuReadMapping (m : Mapper0) (addr : Nat) : Option Nat :=
  if 0x8000 ≤ addr ∧ addr ≤ 0xFFFF then
    some (addr &&& (if m.numPrgBanks > 1 then 0x7FFF else 0x3FFF))
  else
    none

/-- Embedding of `Mapper0::cpu_write_mapping` (same mapping as reads in the
source). -/
def Mapper0.cpuWriteMapping (m : Mapper0) (addr : Nat) : Option Nat :=
  if 0x8000 ≤ addr ∧ addr ≤ 0xFFFF then
    some (addr &&& (if m.numPrgBanks > 1 then 0x7FFF else 0x3FFF))
  else
    none

/-- Embedding of `Mapper0::ppu_read_mapping`: $0000-$1FFF maps directly into
CHR-ROM. -/
def Mapper0.ppuReadMapping (m : Mapper0) (addr : Nat) : Option Nat :=
  if addr ≤ 0x1FFF then some addr else none

/-- Embedding of `Mapper0::ppu_write_mapping`: $0000-$1FFF is writable only
when the cartridge has zero CHR banks (CHR-RAM). -/
def Mapper0.ppuWriteMapping (m : Mapper0) (addr : Nat) : Option Nat :=
  if addr ≤ 0x1FFF ∧ m.numChrBanks = 0 then some addr else none

/-- Embedding of `Cartridge` from src/cartridge.rs. -/
structure Cartridge where
  mapperId : Nat
  mapper : Mapper0
  mirror : Mirror
  numPrgBanks : Nat
  numChrBanks : Nat
  prgRom : List Nat
  chrRom : List Nat
deriving DecidableEq

/-- Embedding of `Cartridge::cpu_read`.  The outer `none` embeds the panic of
an out-of-bounds `Vec` index; the inner `none` means the address is not
handled by the cartridge. -/
def Cartridge.cpuRead (c : Cartridge) (addr : Nat) : Option (Option Nat) :=
  match c.mapper.cpuReadMapping addr with
  | some a =>
    match c.prgRom.get? a with
    | some v => some (some v)
    | none => none
  | none => some none

/-- Embedding of `Cartridge::cpu_write`.  The source routes the write through
`cpu_read_mapping` and stores the value into `prg_rom`, returning `true` when
the mapper handled the address. -/
def Cartridge.cpuWrite (c : Cartridge) (addr value : Nat) : Option (Cartridge × Bool) :=
  match c.mapper.cpuReadMapping addr with
  | some a =>
    if a < c.prgRom.length then
      some ({ c with prgRom := c.prgRom.set a value }, true)
    else
      none
  | none => some (c, false)

/-- Embedding of `Cartridge::ppu_read`. -/
def Cartridge.ppuRead (c : Cartridge) (addr : Nat) : Option (Option Nat) :=
  match c.mapper.ppuReadMapping addr with
  | some a =>
    match c.chrRom.get? a with
    | some v => some (some v)
    | none => none
  | none => some none

/-- Embedding of `Cartridge::ppu_write`.  Like `cpu_write`, the source calls
the read mapping (`ppu_read_mapping`), not `ppu_write_mapping`. -/
def Cartridge.ppuWrite (c : Cartridge) (addr value : Nat) : Option (Cartridge × Bool) :=
  match c.mapper.ppuReadMapping addr with
  | some a =>
    if a < c.chrRom.length then
      some ({ c with chrRom := c.chrRom.set a value }, true)
    else
      none
  | none => some (c, false)

/-- Embedding of `Joypad` from src/joypad.rs: strobe flag, next-button index
and the 8-bit pressed-button bitmask. -/
structure Joypad where
  strobe : Bool
  nextBtnIdx : Nat
  status : Nat
deriving DecidableEq

/-- Embedding of `Joypad::new`. -/
def Joypad.new : Joypad := ⟨false, 0, 0⟩

/-- Embedding of `Joypad::write`: bit 0 of the value sets the strobe; turning
the strobe on resets the button index. -/
def Joypad.write (j : Joypad) (value : Nat) : Joypad :=
  let st : Bool := value &&& 1 == 1
  { j with strobe := st, nextBtnIdx := if st then 0 else j.nextBtnIdx }

/-- Embedding of the local `is_btn_on` helper inside `Joypad::read`. -/
def Joypad.isBtnOn (status btnIdx : Nat) : Bool := status &&& (1 <<< btnIdx) > 0

/-- Embedding of `Joypad::read`: past index 7 every read returns 1; otherwise
the selected button bit is returned and, when the strobe is off, the index
advances. -/
def Joypad.read (j : Joypad) : Nat × Joypad :=
  if j.nextBtnIdx > 7 then (1, j)
  else
    let response : Nat := if Joypad.isBtnOn j.status j.nextBtnIdx then 1 else 0
    if j.strobe = false ∧ j.nextBtnIdx ≤ 7 then
      (response, { j with nextBtnIdx := j.nextBtnIdx + 1 })
    else
      (response, j)

/-- Embedding of `AddrRegister` from src/ppu/registers/addr.rs: a two-write
latch composing a 16-bit VRAM address, high byte first. -/
structure AddrRegister where
  hi : Nat
  lo : Nat
  writeToHi : Bool
deriving DecidableEq

/-- Embedding of `AddrRegister::new`. -/
def AddrRegister.new : AddrRegister := ⟨0, 0, true⟩

/-- Embedding of `AddrRegister::get`. -/
def AddrRegister.get (r : AddrRegister) : Nat := (r.hi <<< 8) ||| r.lo

/-- Embedding of `AddrRegister::write`: fill the latched byte and flip the
latch. -/
def AddrRegister.write (r : AddrRegister) (value : Nat) : AddrRegister :=
  if r.writeToHi then
    { r with hi := value, writeToHi := false }
  else
    { r with lo := value, writeToHi := true }

/-- Embedding of the private `AddrRegister::set`. -/
def AddrRegister.set (r : AddrRegister) (value : Nat) : AddrRegister :=
  { r with hi := (value &&& 0xFF00) >>> 8, lo := value &&& 0x00FF }

/-- Embedding of `AddrRegister::inc` (a `u16::wrapping_add`). -/
def AddrRegister.inc (r : AddrRegister) (delta : Nat) : AddrRegister :=
  r.set (u16wrapAdd r.get delta)

/-- Modelled from the spec: `AddrRegister::reset_latch` is called by
`PPU::read_status_reg` but its body is missing from the repository snapshot
of src/ppu/registers/addr.rs; per the spec, reading the status register
resets the write latch, so the next write is the high byte again. -/
def AddrRegister.resetLatch (r : AddrRegister) : AddrRegister :=
  { r with writeToHi := true }

/-- Modelled from the spec: `ScrollRegister` (src/ppu/registers/scroll.rs is
missing from the repository snapshot).  It mirrors the address latch
pattern: two successive writes deliver scroll-X then scroll-Y, and
`reset_latch` makes the next write X again. -/
structure ScrollRegister where
  scrollX : Nat
  scrollY : Nat
  writeToX : Bool
deriving DecidableEq

/-- Modelled from the spec: `ScrollRegister::new` starts zeroed with the
latch on X. -/
def ScrollRegister.new : ScrollRegister := ⟨0, 0, true⟩

/-- Modelled from the spec: `ScrollRegister::write` fills X then Y. -/
def ScrollRegister.write (r : ScrollRegister) (value : Nat) : ScrollRegister :=
  if r.writeToX then
    { r with scrollX := value, writeToX := false }
  else
    { r with scrollY := value, writeToX := true }

/-- Modelled from the spec: `ScrollRegister::reset_latch`. -/
def ScrollRegister.resetLatch (r : ScrollRegister) : ScrollRegister :=
  { r with writeToX := true }

/-- Embedding of `CtrlRegister` from src/ppu/registers/ctrl.rs (a bitflags
byte). -/
structure CtrlRegister where
  bits : Nat
deriving DecidableEq

/-- Embedding of `CtrlRegister::new`. -/
def CtrlRegister.new : CtrlRegister := ⟨0⟩

/-- Embedding of `CtrlRegister::write`. -/
def CtrlRegister.write (r : CtrlRegister) (value : Nat) : CtrlRegister := ⟨value⟩

/-- Embedding of `CtrlRegister::get_vram_addr_inc`: 32 when the
VRAM_ADDR_INCREMENT bit (0b100) is set, else 1. -/
def CtrlRegister.getVramAddrInc (r : CtrlRegister) : Nat :=
  if r.bits &&& 0x04 ≠ 0 then 32 else 1

/-- Embedding of `CtrlRegister` GENERATE_NMI containment (bit 7). -/
def CtrlRegister.isGenerateNmi (r : CtrlRegister) : Bool := r.bits &&& 0x80 != 0

/-- Embedding of `MaskRegister` from src/ppu/registers/mask.rs. -/
structure MaskRegister where
  bits : Nat
deriving DecidableEq

/-- Embedding of `MaskRegister::new`. -/
def MaskRegister.new : MaskRegister := ⟨0⟩

/-- Embedding of `MaskRegister::write`. -/
def MaskRegister.write (r : MaskRegister) (value : Nat) : MaskRegister := ⟨value⟩

/-- Embedding of `MaskRegister::grayscale` (GREYSCALE bit 0). -/
def MaskRegister.grayscale (r : MaskRegister) : Bool := r.bits &&& 0x01 != 0

/-- Embedding of `StatusRegister` from src/ppu/registers/status.rs (the
bitflags byte; VERTICAL_BLANK_STARTED is bit 7, SPRITE_ZERO_HIT bit 6). -/
structure StatusRegister where
  bits : Nat
deriving DecidableEq

/-- Modelled from the spec: `StatusRegister::read` (the method bodies are
missing from the snapshot of src/ppu/registers/status.rs); it returns the
packed bits. -/
def StatusRegister.read (r : StatusRegister) : Nat := r.bits

/-- Modelled from the spec: `StatusRegister::set_vblank_started` inserts or
removes bit 7 (bitflags set). -/
def StatusRegister.setVblankStarted (r : StatusRegister) (flag : Bool) : StatusRegister :=
  if flag then ⟨r.bits ||| 0x80⟩ else ⟨r.bits &&& 0x7F⟩

/-- Embedding of `PPU` from src/ppu/mod.rs.  `chrRom` and `vram` are
embedded as lists (indexing can go out of bounds in the source); the
palette table and OAM are fixed arrays whose source indices are always
masked into range, embedded as total functions. -/
structure PPU where
  chrRom : List Nat
  vram : List Nat
  palette : Nat → Nat
  mirror : Mirror
  addrReg : AddrRegister
  ctrlReg : CtrlRegister
  statusReg : StatusRegister
  scrollReg : ScrollRegister
  maskReg : MaskRegister
  oamData : Nat → Nat
  oamAddr : Nat
  dataBuf : Nat
  nmi : Bool
  scanlines : Nat
  cycles : Nat

/-- Embedding of `PPU::get_mirrored_vram_addr`: mask into the 4 KiB logical
nametable space, then map the logical nametable (0-3) onto one of the two
1 KiB physical nametables according to the cartridge mirroring. -/
def PPU.getMirroredVramAddr (p : PPU) (addr : Nat) : Nat :=
  let logicalVramIdx := addr &&& 0x0FFF
  let nametableIdx := logicalVramIdx / 0x0400
  let vramIdxA := logicalVramIdx % 0x0400
  let vramIdxB := vramIdxA + 0x0400
  match p.mirror, nametableIdx with
  | Mirror.horizontal, 0 => vramIdxA
  | Mirror.horizontal, 1 => vramIdxA
  | Mirror.vertical, 0 => vramIdxA
  | Mirror.vertical, 2 => vramIdxA
  | Mirror.horizontal, 2 => vramIdxB
  | Mirror.horizontal, 3 => vramIdxB
  | Mirror.vertical, 1 => vramIdxB
  | Mirror.vertical, 3 => vramIdxB
  | _, _ => logicalVramIdx

/-- Embedding of the palette-index mirroring shared by `read_data_reg` and
`write_data_reg`: mask to 32 bytes and fold $10/$14/$18/$1C down to
$00/$04/$08/$0C. -/
def paletteMirrorIdx (addr : Nat) : Nat :=
  let mirrored := addr &&& 0x001F
  if mirrored = 0x0010 then 0x0000
  else if mirrored = 0x0014 then 0x0004
  else if mirrored = 0x0018 then 0x0008
  else if mirrored = 0x001C then 0x000C
  else mirrored

/-- Embedding of `PPU::read_data_reg`: buffered reads below $3F00, direct
(masked) palette reads above; the address auto-increments first.  `none`
embeds an out-of-bounds `chr_rom` or `vram` index. -/
def PPU.readDataReg (p : PPU) : Option (Nat × PPU) :=
  let addr := p.addrReg.get &&& 0x3FFF
  let buf := p.dataBuf
  let p1 := { p with addrReg := p.addrReg.inc p.ctrlReg.getVramAddrInc }
  if addr ≤ 0x1FFF then
    match p1.chrRom.get? addr with
    | some v => some (buf, { p1 with dataBuf := v })
    | none => none
  else if addr ≤ 0x3EFF then
    let mirrored := addr &&& 0x0FFF
    match p1.vram.get? (p1.getMirroredVramAddr mirrored) with
    | some v => some (buf, { p1 with dataBuf := v })
    | none => none
  else
    let m := paletteMirrorIdx addr
    if p1.maskReg.grayscale then
      some (p1.palette m &&& 0x30, p1)
    else
      some (p1.palette m &&& 0x3F, p1)

/-- Embedding of `PPU::write_data_reg`: the CHR range panics (`none`), the
nametable range stores through the mirroring, the palette range stores
through the palette mirror; the address auto-increments first.  Note the
source uses the unmasked address here. -/
def PPU.writeDataReg (p : PPU) (value : Nat) : Option PPU :=
  let addr := p.addrReg.get
  let p1 := { p with addrReg := p.addrReg.inc p.ctrlReg.getVramAddrInc }
  if addr ≤ 0x1FFF then
    none
  else if addr ≤ 0x3EFF then
    let mirrored := addr &&& 0x0FFF
    let idx := p1.getMirroredVramAddr mirrored
    if idx < p1.vram.length then
      some { p1 with vram := p1.vram.set idx value }
    else
      none
  else if addr ≤ 0x3FFF then
    let m := paletteMirrorIdx addr
    some { p1 with palette := fun i => if i = m then value else p1.palette i }
  else
    none

/-- Embedding of `PPU::read_status_reg`: return the packed status, clear
vblank and reset both write latches. -/
def PPU.readStatusReg (p : PPU) : Nat × PPU :=
  let value := p.statusReg.read
  (value, { p with statusReg := p.statusReg.setVblankStarted false,
                   addrReg := p.addrReg.resetLatch,
                   scrollReg := p.scrollReg.resetLatch })

/-- Embedding of `PPU::read_oam_data`. -/
def PPU.readOamData (p : PPU) : Nat := p.oamData p.oamAddr

/-- Embedding of `PPU::write_oam_data`: store at the OAM pointer, then
`self.oam_addr += 1` — a plain (non-wrapping) `u8` addition, so the
increment overflows (`none`) when the pointer is 255. -/
def PPU.writeOamData (p : PPU) (value : Nat) : Option PPU :=
  if p.oamAddr < 255 then
    some { p with oamData := fun i => if i = p.oamAddr then value else p.oamData i,
                  oamAddr := p.oamAddr + 1 }
  else
    none

/-- Embedding of `PPU::write_oam_addr`. -/
def PPU.writeOamAddr (p : PPU) (value : Nat) : PPU := { p with oamAddr := value }

/-- Embedding of `PPU::cpu_read` ($2000-$3FFF; other addresses panic). -/
def PPU.cpuRead (p : PPU) (cpuAddr : Nat) : Option (Nat × PPU) :=
  if 0x2000 ≤ cpuAddr ∧ cpuAddr ≤ 0x3FFF then
    match cpuAddr &&& 0x0007 with
    | 0 => some (0, p)
    | 1 => some (0, p)
    | 2 => some p.readStatusReg
    | 3 => some (0, p)
    | 4 => some (p.readOamData, p)
    | 5 => some (0, p)
    | 6 => some (0, p)
    | 7 => p.readDataReg
    | _ => none
  else
    none

/-- Embedding of `PPU::cpu_write` ($2000-$3FFF; the status register and
other addresses panic). -/
def PPU.cpuWrite (p : PPU) (cpuAddr value : Nat) : Option PPU :=
  if 0x2000 ≤ cpuAddr ∧ cpuAddr ≤ 0x3FFF then
    match cpuAddr &&& 0x0007 with
    | 0 => some { p with ctrlReg := p.ctrlReg.write value }
    | 1 => some { p with maskReg := p.maskReg.write value }
    | 2 => none
    | 3 => some (p.writeOamAddr value)
    | 4 => p.writeOamData value
    | 5 => some { p with scrollReg := p.scrollReg.write value }
    | 6 => some { p with addrReg := p.addrReg.write value }
    | 7 => p.writeDataReg value
    | _ => none
  else
    none

/-- Embedding of `Bus` from src/bus.rs (the gameloop callback, a host-side
closure, carries no machine state and is omitted).  `cpuRam` is a fixed
2 KiB array always indexed through the `& 0x07FF` mask, embedded as a total
function. -/
structure Bus where
  cpuRam : Nat → Nat
  cart : Cartridge
  ppu : PPU
  joypad1 : Joypad
  joypad2 : Joypad
  totalSystemCycles : Nat
  dmaPage : Nat
  dmaAddr : Nat
  dmaData : Nat
  dmaDummy : Bool
  dmaTransfer : Bool

/-- Embedding of `Bus::cpu_read`: the cartridge gets the first chance, then
RAM (mirrored), PPU registers, the APU stub, the joypads, and 0 for
everything else. -/
def Bus.cpuRead (b : Bus) (addr : Nat) : Option (Nat × Bus) :=
  match b.cart.cpuRead addr with
  | none => none
  | some (some v) => some (v, b)
  | some none =>
    if addr ≤ 0x1FFF then
      some (b.cpuRam (addr &&& 0x07FF), b)
    else if addr ≤ 0x3FFF then
      match b.ppu.cpuRead addr with
      | some (v, p) => some (v, { b with ppu := p })
      | none => none
    else if 0x4000 ≤ addr ∧ addr ≤ 0x4015 then
      some (0, b)
    else if addr = 0x4016 then
      let (v, j) := b.joypad1.read
      some (v, { b with joypad1 := j })
    else if addr = 0x4017 then
      let (v, j) := b.joypad2.read
      some (v, { b with joypad2 := j })
    else
      some (0, b)

/-- Embedding of `Bus::cpu_write`: the cartridge gets the first chance (and
with mapper 0 it handles and stores $8000-$FFFF); then RAM, PPU registers,
the $4014 DMA trigger, the APU stub, and the joypads; other writes are
dropped. -/
def Bus.cpuWrite (b : Bus) (addr value : Nat) : Option Bus :=
  match b.cart.cpuWrite addr value with
  | none => none
  | some (cart1, ok) =>
    let b := { b with cart := cart1 }
    if ok then
      some b
    else if addr ≤ 0x1FFF then
      some { b with cpuRam := fun i => if i = (addr &&& 0x07FF) then value else b.cpuRam i }
    else if addr ≤ 0x3FFF then
      match b.ppu.cpuWrite addr value with
      | some p => some { b with ppu := p }
      | none => none
    else if addr = 0x4014 then
      some { b with dmaPage := value, dmaAddr := 0, dmaTransfer := true }
    else if (0x4000 ≤ addr ∧ addr ≤ 0x4013) ∨ addr = 0x4015 then
      some b
    else if addr = 0x4016 then
      some { b with joypad1 := b.joypad1.write value }
    else if addr = 0x4017 then
      some { b with joypad2 := b.joypad2.write value }
    else
      some b

/-- Embedding of `Bus::system_tick`: on every third system cycle either the
CPU may execute (no DMA) or the DMA engine performs its dummy wait, a read
(even cycles) or an OAM write (odd cycles); the returned `Bool` is the
source's "CPU should tick" result.  The cycle counter wraps at 2^32. -/
def Bus.systemTick (b : Bus) : Option (Bus × Bool) :=
  if b.totalSystemCycles % 3 = 0 then
    if b.dmaTransfer then
      if b.dmaDummy then
        let b := if b.totalSystemCycles % 2 = 1 then { b with dmaDummy := false } else b
        some ({ b with totalSystemCycles := (b.totalSystemCycles + 1) % U32MOD }, false)
      else
        if b.totalSystemCycles % 2 = 0 then
          match b.cpuRead ((b.dmaPage <<< 8) ||| b.dmaAddr) with
          | none => none
          | some (v, b1) =>
            some ({ b1 with dmaData := v,
                            totalSystemCycles := (b1.totalSystemCycles + 1) % U32MOD }, false)
        else
          let b := { b with
            ppu := { b.ppu with
              oamData := fun i => if i = b.dmaAddr then b.dmaData else b.ppu.oamData i },
            dmaAddr := u8wrapAdd b.dmaAddr 1 }
          let b := if b.dmaAddr = 0 then { b with dmaTransfer := false, dmaDummy := true } else b
          some ({ b with totalSystemCycles := (b.totalSystemCycles + 1) % U32MOD }, false)
    else
      some ({ b with totalSystemCycles := (b.totalSystemCycles + 1) % U32MOD }, true)
  else
    some ({ b with totalSystemCycles := (b.totalSystemCycles + 1) % U32MOD }, false)

/-- Iterated `Bus::system_tick`: run `n` ticks, returning the final bus, the
number of ticks taken on a CPU slot (`total_system_cycles % 3 = 0`), and
whether every tick told the CPU not to execute. -/
def Bus.run (b : Bus) : Nat → Option (Bus × Nat × Bool)
  | 0 => some (b, 0, true)
  | n + 1 =>
    match b.systemTick with
    | none => none
    | some (b1, exec) =>
      match b1.run n with
      | none => none
      | some (bf, slots, noExec) =>
        some (bf, (if b.totalSystemCycles % 3 = 0 then 1 else 0) + slots, noExec && !exec)

/-- The bus state after `n` system ticks (`none` once any tick panics). -/
def Bus.after (b : Bus) : Nat → Option Bus
  | 0 => some b
  | n + 1 =>
    match b.systemTick with
    | none => none
    | some (b1, _) => b1.after n

/-- Embedding of `AddrMode` from src/cpu/addr.rs. -/
inductive AddrMode where
  | absolute
  | absoluteX
  | absoluteY
  | zeroPage
  | zeroPageX
  | zeroPageY
  | immediate
  | relative
  | implicit
  | indirect
  | indexedIndirect
  | indirectIndexed
deriving DecidableEq

/-- Embedding of `AddrMode::size` (operand size in bytes). -/
def AddrMode.size : AddrMode → Nat
  | .absolute => 2
  | .absoluteX => 2
  | .absoluteY => 2
  | .zeroPage => 1
  | .zeroPageX => 1
  | .zeroPageY => 1
  | .immediate => 1
  | .relative => 1
  | .implicit => 0
  | .indirect => 2
  | .indexedIndirect => 1
  | .indirectIndexed => 1

/-- Embedding of `Opcode` from src/cpu/spec.rs, together with the unofficial
opcodes matched by `CPU::execute_inst` in src/cpu/mod.rs. -/
inductive Opcode where
  | ADC | AND | ASL | BCC | BCS | BEQ | BIT | BMI | BNE | BPL | BRK | BVC | BVS
  | CLC | CLD | CLI | CLV | CMP | CPX | CPY | DEC | DEX | DEY | EOR | INC | INX
  | INY | JMP | JSR | LDA | LDX | LDY | LSR | NOP | ORA | PHA | PHP | PLA | PLP
  | ROL | ROR | RTI | RTS | SBC | SEC | SED | SEI | STA | STX | STY | TAX | TAY
  | TSX | TXA | TXS | TYA
  | LAX | SAX | DCP | ISB | SLO | RLA | SRE | RRA
deriving DecidableEq

/-- Embedding of `Spec` from src/cpu/spec.rs. -/
structure Spec where
  opcodeByte : Nat
  opcode : Opcode
  addrMode : AddrMode
  baseCycles : Nat
  incCycleOnPageCrossed : Bool
  isOfficial : Bool
deriving DecidableEq

/-- Embedding of `SPEC_TABLE` from src/cpu/spec.rs, first quarter (long
list literals are split to keep elaboration linear). -/
def specTableA : List Spec := [
  ⟨0x69, .ADC, .immediate, 2, false, true⟩,
  ⟨0x65, .ADC, .zeroPage, 3, false, true⟩,
  ⟨0x75, .ADC, .zeroPageX, 4, false, true⟩,
  ⟨0x6D, .ADC, .absolute, 4, false, true⟩,
  ⟨0x7D, .ADC, .absoluteX, 4, true, true⟩,
  ⟨0x79, .ADC, .absoluteY, 4, true, true⟩,
  ⟨0x61, .ADC, .indexedIndirect, 6, false, true⟩,
  ⟨0x71, .ADC, .indirectIndexed, 5, true, true⟩,
  ⟨0x29, .AND, .immediate, 2, false, true⟩,
  ⟨0x25, .AND, .zeroPage, 3, false, true⟩,
  ⟨0x35, .AND, .zeroPageX, 4, false, true⟩,
  ⟨0x2D, .AND, .absolute, 4, false, true⟩,
  ⟨0x3D, .AND, .absoluteX, 4, true, true⟩,
  ⟨0x39, .AND, .absoluteY, 4, true, true⟩,
  ⟨0x21, .AND, .indexedIndirect, 6, false, true⟩,
  ⟨0x31, .AND, .indirectIndexed, 5, true, true⟩,
  ⟨0x0A, .ASL, .implicit, 2, false, true⟩,
  ⟨0x06, .ASL, .zeroPage, 5, false, true⟩,
  ⟨0x16, .ASL, .zeroPageX, 6, false, true⟩,
  ⟨0x0E, .ASL, .absolute, 6, false, true⟩,
  ⟨0x1E, .ASL, .absoluteX, 7, false, true⟩,
  ⟨0x90, .BCC, .relative, 2, true, true⟩,
  ⟨0xB0, .BCS, .relative, 2, true, true⟩,
  ⟨0xF0, .BEQ, .relative, 2, true, true⟩,
  ⟨0x24, .BIT, .zeroPage, 3, false, true⟩,
  ⟨0x2C, .BIT, .absolute, 4, false, true⟩,
  ⟨0x30, .BMI, .relative, 2, true, true⟩,
  ⟨0xD0, .BNE, .relative, 2, true, true⟩,
  ⟨0x10, .BPL, .relative, 2, true, true⟩,
  ⟨0x00, .BRK, .implicit, 7, false, true⟩,
  ⟨0x50, .BVC, .relative, 2, true, true⟩,
  ⟨0x70, .BVS, .relative, 2, true, true⟩,
  ⟨0x18, .CLC, .implicit, 2, false, true⟩,
  ⟨0xD8, .CLD, .implicit, 2, false, true⟩,
  ⟨0x58, .CLI, .implicit, 2, false, true⟩,
  ⟨0xB8, .CLV, .implicit, 2, false, true⟩,
  ⟨0xC9, .CMP, .immediate, 2, false, true⟩,
  ⟨0xC5, .CMP, .zeroPage, 3, false, true⟩,
  ⟨0xD5, .CMP, .zeroPageX, 4, false, true⟩,
  ⟨0xCD, .CMP, .absolute, 4, false, true⟩,
  ⟨0xDD, .CMP, .absoluteX, 4, true, true⟩,
  ⟨0xD9, .CMP, .absoluteY, 4, true, true⟩,
  ⟨0xC1, .CMP, .indexedIndirect, 6, false, true⟩,
  ⟨0xD1, .CMP, .indirectIndexed, 5, true, true⟩,
  ⟨0xE0, .CPX, .immediate, 2, false, true⟩]

/-- Embedding of `SPEC_TABLE`, second quarter. -/
def specTableB : List Spec := [
  ⟨0xE4, .CPX, .zeroPage, 3, false, true⟩,
  ⟨0xEC, .CPX, .absolute, 4, false, true⟩,
  ⟨0xC0, .CPY, .immediate, 2, false, true⟩,
  ⟨0xC4, .CPY, .zeroPage, 3, false, true⟩,
  ⟨0xCC, .CPY, .absolute, 4, false, true⟩,
  ⟨0xC6, .DEC, .zeroPage, 5, false, true⟩,
  ⟨0xD6, .DEC, .zeroPageX, 6, false, true⟩,
  ⟨0xCE, .DEC, .absolute, 6, false, true⟩,
  ⟨0xDE, .DEC, .absoluteX, 7, false, true⟩,
  ⟨0xCA, .DEX, .implicit, 2, false, true⟩,
  ⟨0x88, .DEY, .implicit, 2, false, true⟩,
  ⟨0x49, .EOR, .immediate, 2, false, true⟩,
  ⟨0x45, .EOR, .zeroPage, 3, false, true⟩,
  ⟨0x55, .EOR, .zeroPageX, 4, false, true⟩,
  ⟨0x4D, .EOR, .absolute, 4, false, true⟩,
  ⟨0x5D, .EOR, .absoluteX, 4, true, true⟩,
  ⟨0x59, .EOR, .absoluteY, 4, true, true⟩,
  ⟨0x41, .EOR, .indexedIndirect, 6, false, true⟩,
  ⟨0x51, .EOR, .indirectIndexed, 5, true, true⟩,
  ⟨0xE6, .INC, .zeroPage, 5, false, true⟩,
  ⟨0xF6, .INC, .zeroPageX, 6, false, true⟩,
  ⟨0xEE, .INC, .absolute, 6, false, true⟩,
  ⟨0xFE, .INC, .absoluteX, 7, false, true⟩,
  ⟨0xE8, .INX, .implicit, 2, false, true⟩,
  ⟨0xC8, .INY, .implicit, 2, false, true⟩,
  ⟨0x4C, .JMP, .absolute, 3, false, true⟩,
  ⟨0x6C, .JMP, .indirect, 5, false, true⟩,
  ⟨0x20, .JSR, .absolute, 6, false, true⟩,
  ⟨0xA9, .LDA, .immediate, 2, false, true⟩,
  ⟨0xA5, .LDA, .zeroPage, 3, false, true⟩,
  ⟨0xB5, .LDA, .zeroPageX, 4, false, true⟩,
  ⟨0xAD, .LDA, .absolute, 4, false, true⟩,
  ⟨0xBD, .LDA, .absoluteX, 4, true, true⟩,
  ⟨0xB9, .LDA, .absoluteY, 4, true, true⟩,
  ⟨0xA1, .LDA, .indexedIndirect, 6, false, true⟩,
  ⟨0xB1, .LDA, .indirectIndexed, 5, true, true⟩,
  ⟨0xA2, .LDX, .immediate, 2, false, true⟩,
  ⟨0xA6, .LDX, .zeroPage, 3, false, true⟩,
  ⟨0xB6, .LDX, .zeroPageY, 4, false, true⟩,
  ⟨0xAE, .LDX, .absolute, 4, false, true⟩,
  ⟨0xBE, .LDX, .absoluteY, 4, true, true⟩,
  ⟨0xA0, .LDY, .immediate, 2, false, true⟩,
  ⟨0xA4, .LDY, .zeroPage, 3, false, true⟩,
  ⟨0xB4, .LDY, .zeroPageX, 4, false, true⟩,
  ⟨0xAC, .LDY, .absolute, 4, false, true⟩]

/-- Embedding of `SPEC_TABLE`, third quarter. -/
def specTableC : List Spec := [
  ⟨0xBC, .LDY, .absoluteX, 4, true, true⟩,
  ⟨0x4A, .LSR, .implicit, 2, false, true⟩,
  ⟨0x46, .LSR, .zeroPage, 5, false, true⟩,
  ⟨0x56, .LSR, .zeroPageX, 6, false, true⟩,
  ⟨0x4E, .LSR, .absolute, 6, false, true⟩,
  ⟨0x5E, .LSR, .absoluteX, 7, false, true⟩,
  ⟨0xEA, .NOP, .implicit, 2, false, true⟩,
  ⟨0x09, .ORA, .immediate, 2, false, true⟩,
  ⟨0x05, .ORA, .zeroPage, 3, false, true⟩,
  ⟨0x15, .ORA, .zeroPageX, 4, false, true⟩,
  ⟨0x0D, .ORA, .absolute, 4, false, true⟩,
  ⟨0x1D, .ORA, .absoluteX, 4, true, true⟩,
  ⟨0x19, .ORA, .absoluteY, 4, true, true⟩,
  ⟨0x01, .ORA, .indexedIndirect, 6, false, true⟩,
  ⟨0x11, .ORA, .indirectIndexed, 5, true, true⟩,
  ⟨0x48, .PHA, .implicit, 3, false, true⟩,
  ⟨0x08, .PHP, .implicit, 3, false, true⟩,
  ⟨0x68, .PLA, .implicit, 4, false, true⟩,
  ⟨0x28, .PLP, .implicit, 4, false, true⟩,
  ⟨0x2A, .ROL, .implicit, 2, false, true⟩,
  ⟨0x26, .ROL, .zeroPage, 5, false, true⟩,
  ⟨0x36, .ROL, .zeroPageX, 6, false, true⟩,
  ⟨0x2E, .ROL, .absolute, 6, false, true⟩,
  ⟨0x3E, .ROL, .absoluteX, 7, false, true⟩,
  ⟨0x6A, .ROR, .implicit, 2, false, true⟩,
  ⟨0x66, .ROR, .zeroPage, 5, false, true⟩,
  ⟨0x76, .ROR, .zeroPageX, 6, false, true⟩,
  ⟨0x6E, .ROR, .absolute, 6, false, true⟩,
  ⟨0x7E, .ROR, .absoluteX, 7, false, true⟩,
  ⟨0x40, .RTI, .implicit, 6, false, true⟩,
  ⟨0x60, .RTS, .implicit, 6, false, true⟩,
  ⟨0xE9, .SBC, .immediate, 2, false, true⟩,
  ⟨0xE5, .SBC, .zeroPage, 3, false, true⟩,
  ⟨0xF5, .SBC, .zeroPageX, 4, false, true⟩,
  ⟨0xED, .SBC, .absolute, 4, false, true⟩,
  ⟨0xFD, .SBC, .absoluteX, 4, true, true⟩,
  ⟨0xF9, .SBC, .absoluteY, 4, true, true⟩,
  ⟨0xE1, .SBC, .indexedIndirect, 6, false, true⟩,
  ⟨0xF1, .SBC, .indirectIndexed, 5, true, true⟩,
  ⟨0x38, .SEC, .implicit, 2, false, true⟩,
  ⟨0xF8, .SED, .implicit, 2, false, true⟩,
  ⟨0x78, .SEI, .implicit, 2, false, true⟩,
  ⟨0x85, .STA, .zeroPage, 3, false, true⟩,
  ⟨0x95, .STA, .zeroPageX, 4, false, true⟩,
  ⟨0x8D, .STA, .absolute, 4, false, true⟩]

/-- Embedding of `SPEC_TABLE`, fourth quarter. -/
def specTableD : List Spec := [
  ⟨0x9D, .STA, .absoluteX, 5, false, true⟩,
  ⟨0x99, .STA, .absoluteY, 5, false, true⟩,
  ⟨0x81, .STA, .indexedIndirect, 6, false, true⟩,
  ⟨0x91, .STA, .indirectIndexed, 6, false, true⟩,
  ⟨0x86, .STX, .zeroPage, 3, false, true⟩,
  ⟨0x96, .STX, .zeroPageY, 4, false, true⟩,
  ⟨0x8E, .STX, .absolute, 4, false, true⟩,
  ⟨0x84, .STY, .zeroPage, 3, false, true⟩,
  ⟨0x94, .STY, .zeroPageX, 4, false, true⟩,
  ⟨0x8C, .STY, .absolute, 4, false, true⟩,
  ⟨0xAA, .TAX, .implicit, 2, false, true⟩,
  ⟨0xA8, .TAY, .implicit, 2, false, true⟩,
  ⟨0xBA, .TSX, .implicit, 2, false, true⟩,
  ⟨0x8A, .TXA, .implicit, 2, false, true⟩,
  ⟨0x9A, .TXS, .implicit, 2, false, true⟩,
  ⟨0x98, .TYA, .implicit, 2, false, true⟩,
  ⟨0x1A, .NOP, .implicit, 2, false, false⟩,
  ⟨0x3A, .NOP, .implicit, 2, false, false⟩,
  ⟨0x5A, .NOP, .implicit, 2, false, false⟩,
  ⟨0x7A, .NOP, .implicit, 2, false, false⟩,
  ⟨0xDA, .NOP, .implicit, 2, false, false⟩,
  ⟨0xFA, .NOP, .implicit, 2, false, false⟩,
  ⟨0x04, .NOP, .zeroPage, 3, false, false⟩,
  ⟨0x14, .NOP, .zeroPageX, 4, false, false⟩,
  ⟨0x34, .NOP, .zeroPageX, 4, false, false⟩,
  ⟨0x44, .NOP, .zeroPage, 3, false, false⟩,
  ⟨0x54, .NOP, .zeroPageX, 4, false, false⟩,
  ⟨0x64, .NOP, .zeroPage, 3, false, false⟩,
  ⟨0x74, .NOP, .zeroPageX, 4, false, false⟩,
  ⟨0x80, .NOP, .immediate, 2, false, false⟩,
  ⟨0x82, .NOP, .immediate, 2, false, false⟩,
  ⟨0x89, .NOP, .immediate, 2, false, false⟩,
  ⟨0xC2, .NOP, .immediate, 2, false, false⟩,
  ⟨0xD4, .NOP, .zeroPageX, 4, false, false⟩,
  ⟨0xE2, .NOP, .immediate, 2, false, false⟩,
  ⟨0xF4, .NOP, .zeroPageX, 4, false, false⟩,
  ⟨0x0C, .NOP, .absolute, 4, false, false⟩,
  ⟨0x1C, .NOP, .absoluteX, 4, true, false⟩,
  ⟨0x3C, .NOP, .absoluteX, 4, true, false⟩,
  ⟨0x5C, .NOP, .absoluteX, 4, true, false⟩,
  ⟨0x7C, .NOP, .absoluteX, 4, true, false⟩,
  ⟨0xDC, .NOP, .absoluteX, 4, true, false⟩,
  ⟨0xFC, .NOP, .absoluteX, 4, true, false⟩]

/-- Embedding of `SPEC_TABLE` from src/cpu/spec.rs: all entries. -/
def specTable : List Spec := specTableA ++ specTableB ++ specTableC ++ specTableD

/-- Embedding of the `opcode_to_spec` hash map: look the opcode byte up in
the table. -/
def opcodeToSpec (b : Nat) : Option Spec :=
  specTable.find? (fun s => s.opcodeByte == b)

/-- Embedding of `CPUStatusBit` from src/cpu/mod.rs. -/
inductive StatusBit where
  | C | Z | I | D | B | U | V | N
deriving DecidableEq

/-- Embedding of `CPUStatusBit::bit_offset`. -/
def StatusBit.bitOffset : StatusBit → Nat
  | .C => 0
  | .Z => 1
  | .I => 2
  | .D => 3
  | .B => 4
  | .U => 5
  | .V => 6
  | .N => 7

/-- Embedding of `CPUStatus::turn_on`. -/
def statusTurnOn (bits : Nat) (bit : StatusBit) : Nat :=
  bits ||| (1 <<< bit.bitOffset)

/-- Embedding of `CPUStatus::turn_off` (the `u8` complement of a single-bit
mask is `0xFF ^^^ mask`). -/
def statusTurnOff (bits : Nat) (bit : StatusBit) : Nat :=
  bits &&& (0xFF ^^^ (1 <<< bit.bitOffset))

/-- Embedding of `CPUStatus::set`. -/
def statusSetBit (bits : Nat) (bit : StatusBit) (flag : Bool) : Nat :=
  if flag then statusTurnOn bits bit else statusTurnOff bits bit

/-- Embedding of `CPU` from src/cpu/mod.rs (the opcode table lives in
`opcodeToSpec`). -/
structure CPU where
  pc : Nat
  sp : Nat
  acc : Nat
  regX : Nat
  regY : Nat
  status : Nat
  cycles : Nat
  totalCycles : Nat
  bus : Bus

/-- Embedding of `CPU::get_status` / `CPUStatus::get`. -/
def CPU.getStatus (c : CPU) (bit : StatusBit) : Bool :=
  c.status &&& (1 <<< bit.bitOffset) != 0

/-- Embedding of `CPU::set_status`. -/
def CPU.setStatus (c : CPU) (bit : StatusBit) (flag : Bool) : CPU :=
  { c with status := statusSetBit c.status bit flag }

/-- Embedding of `CPU::update_status_Z_N`. -/
def CPU.updateStatusZN (c : CPU) (result : Nat) : CPU :=
  (c.setStatus .Z (result == 0)).setStatus .N (result &&& 0x80 != 0)

/-- Embedding of `CPU::read` (all reads go through the bus and may carry
side effects on the PPU and joypads). -/
def CPU.read (c : CPU) (addr : Nat) : Option (Nat × CPU) :=
  match c.bus.cpuRead addr with
  | some (v, b) => some (v, { c with bus := b })
  | none => none

/-- Embedding of `CPU::write`. -/
def CPU.write (c : CPU) (addr value : Nat) : Option CPU :=
  match c.bus.cpuWrite addr value with
  | some b => some { c with bus := b }
  | none => none

/-- Embedding of `CPU::read_u16` (little endian; the `addr + 1` is a plain
`u16` addition, strict at $FFFF). -/
def CPU.readU16 (c : CPU) (addr : Nat) : Option (Nat × CPU) :=
  match c.read addr with
  | none => none
  | some (a, c) =>
    if addr + 1 ≤ 0xFFFF then
      match c.read (addr + 1) with
      | none => none
      | some (b2, c) => some (a ||| (b2 <<< 8), c)
    else
      none

/-- Embedding of `CPU::stack_push`: write to $0100+SP then wrap-decrement
SP. -/
def CPU.stackPush (c : CPU) (data : Nat) : Option CPU :=
  match c.write (0x0100 + c.sp) data with
  | some c => some { c with sp := u8wrapSub c.sp 1 }
  | none => none

/-- Embedding of `CPU::stack_pop`: wrap-increment SP then read $0100+SP. -/
def CPU.stackPop (c : CPU) : Option (Nat × CPU) :=
  let c := { c with sp := u8wrapAdd c.sp 1 }
  c.read (0x0100 + c.sp)

/-- Embedding of `CPU::stack_pop_u16` (low byte first). -/
def CPU.stackPopU16 (c : CPU) : Option (Nat × CPU) :=
  match c.stackPop with
  | none => none
  | some (lo, c) =>
    match c.stackPop with
    | none => none
    | some (hi, c) => some ((hi <<< 8) ||| lo, c)

/-- Interpretation of a byte as Rust `i8` (used for relative branches). -/
def signedOfU8 (v : Nat) : Int :=
  if v < 128 then (v : Int) else (v : Int) - 256

/-- Embedding of `CPU::peak_oprand_addr_and_cycles`.  The source reads the
next byte and the next 16-bit word up front regardless of the mode (these
bus reads and their side effects are preserved), then computes the operand
address and the page-cross penalty. -/
def CPU.peakOprandAddrAndCycles (c : CPU) (addrMode : AddrMode)
    (incCycleOnPageCrossed : Bool) : Option ((Nat × Nat) × CPU) :=
  match c.read c.pc with
  | none => none
  | some (nextU8, c) =>
  match c.readU16 c.pc with
  | none => none
  | some (nextU16, c) =>
  match addrMode with
  | .absolute => some ((nextU16, 0), c)
  | .absoluteX =>
    let addr := u16wrapAdd nextU16 c.regX
    let cyc := if addr &&& 0xFF00 ≠ nextU16 &&& 0xFF00 ∧ incCycleOnPageCrossed then 1 else 0
    some ((addr, cyc), c)
  | .absoluteY =>
    let addr := u16wrapAdd nextU16 c.regY
    let cyc := if addr &&& 0xFF00 ≠ nextU16 &&& 0xFF00 ∧ incCycleOnPageCrossed then 1 else 0
    some ((addr, cyc), c)
  | .zeroPage => some ((nextU8, 0), c)
  | .zeroPageX => some ((u8wrapAdd nextU8 c.regX, 0), c)
  | .zeroPageY => some ((u8wrapAdd nextU8 c.regY, 0), c)
  | .immediate => some ((c.pc, 0), c)
  | .relative =>
    some (((((c.pc : Int) + 1 + signedOfU8 nextU8) % 65536).toNat, 0), c)
  | .implicit => some ((0, 0), c)
  | .indirect =>
    match c.readU16 nextU16 with
    | none => none
    | some (a, c) => some ((a, 0), c)
  | .indexedIndirect =>
    let indexed := u8wrapAdd nextU8 c.regX
    if indexed = 0xFF then
      match c.readU16 indexed with
      | none => none
      | some (_, c) =>
      match c.read 0x00FF with
      | none => none
      | some (a, c) =>
      match c.read 0x0000 with
      | none => none
      | some (b2, c) => some ((a ||| (b2 <<< 8), 0), c)
    else
      match c.readU16 indexed with
      | none => none
      | some (a, c) => some ((a, 0), c)
  | .indirectIndexed =>
    let step : Option (Nat × CPU) :=
      if nextU8 = 0xFF then
        match c.read 0x00FF with
        | none => none
        | some (a, c) =>
        match c.read 0x0000 with
        | none => none
        | some (b2, c) => some (a ||| (b2 <<< 8), c)
      else
        c.readU16 nextU8
    match step with
    | none => none
    | some (addrBeforeAddY, c) =>
      let addr := u16wrapAdd addrBeforeAddY c.regY
      match c.readU16 nextU8 with
      | none => none
      | some (chk, c) =>
        let cyc := if addr &&& 0xFF00 ≠ chk &&& 0xFF00 ∧ incCycleOnPageCrossed then 1 else 0
        some ((addr, cyc), c)

/-- Embedding of `Instruction` from src/cpu/mod.rs. -/
structure Instr where
  opcodeByte : Nat
  oprandAddr : Nat
  spec : Spec
  cycles : Nat
deriving DecidableEq

/-- Embedding of `CPU::fetch_next_instruction`.  The `unwrap` on a missing
spec-table entry and the plain `u16` PC increments are strict (`none`). -/
def CPU.fetchNextInstruction (c : CPU) : Option (Instr × CPU) :=
  match c.read c.pc with
  | none => none
  | some (opcodeByte, c) =>
  if c.pc + 1 ≤ 0xFFFF then
    let c := { c with pc := c.pc + 1 }
    match opcodeToSpec opcodeByte with
    | none => none
    | some spec =>
    match c.peakOprandAddrAndCycles spec.addrMode spec.incCycleOnPageCrossed with
    | none => none
    | some ((oprandAddr, additionalCycles), c) =>
    if c.pc + spec.addrMode.size ≤ 0xFFFF then
      some (⟨opcodeByte, oprandAddr, spec, spec.baseCycles + additionalCycles⟩,
            { c with pc := c.pc + spec.addrMode.size })
    else
      none
  else
    none

/-- Embedding of the `handle_branching` helper inside `CPU::execute_inst`:
one extra cycle for a taken branch, another if the target is on a different
page, then jump. -/
def CPU.handleBranching (c : CPU) (oprandAddr : Nat) : CPU :=
  let cycles := c.cycles + 1
  let cycles := if oprandAddr &&& 0xFF00 ≠ c.pc &&& 0xFF00 then cycles + 1 else cycles
  { c with cycles := cycles, pc := oprandAddr }

/-- Embedding of the ADC arm of `CPU::execute_inst` (pure once the operand
byte has been read). -/
def CPU.adcArm (c : CPU) (oprand : Nat) : CPU :=
  let carry : Nat := if c.getStatus .C then 1 else 0
  let result := u8wrapAdd (u8wrapAdd c.acc oprand) carry
  let tmp := c.acc + oprand + carry
  let c := c.setStatus .C (decide (tmp > 0xFF))
  let c := c.setStatus .Z (result == 0)
  let overflow : Bool := (result ^^^ oprand) &&& (c.acc ^^^ result) &&& 0x0080 != 0
  let c := c.setStatus .V overflow
  let c := c.setStatus .N (tmp &&& 0x0080 != 0)
  { c with acc := result }

/-- Embedding of the SBC arm of `CPU::execute_inst`: the operand is inverted
in 8 bits and the ADC data path runs on the 16-bit sum. -/
def CPU.sbcArm (c : CPU) (oprand : Nat) : CPU :=
  let value := oprand ^^^ 0x00FF
  let carry : Nat := if c.getStatus .C then 1 else 0
  let tmp := c.acc + value + carry
  let c := c.setStatus .C (tmp &&& 0xFF00 != 0)
  let c := c.setStatus .Z (tmp &&& 0x00FF == 0)
  let overflow : Bool := (tmp ^^^ c.acc) &&& (tmp ^^^ value) &&& 0x0080 != 0
  let c := c.setStatus .V overflow
  let c := c.setStatus .N (tmp &&& 0x0080 != 0)
  { c with acc := tmp &&& 0x00FF }

/-- Embedding of `CPU::execute_inst`.  The source first reads the operand
byte at the operand address (side effects preserved) and then dispatches on
the mnemonic; plain `u16`/`u8` increments and decrements (BRK and JSR stack
pointer updates, PC adjustments) are strict. -/
def CPU.executeInst (c : CPU) (inst : Instr) : Option CPU :=
  let addrMode := inst.spec.addrMode
  let oprandAddr := inst.oprandAddr
  match c.read oprandAddr with
  | none => none
  | some (oprand, c) =>
  match inst.spec.opcode with
  | .ADC => some (c.adcArm oprand)
  | .SBC => some (c.sbcArm oprand)
  | .AND =>
    let c := { c with acc := c.acc &&& oprand }
    let c := c.setStatus .Z (c.acc == 0)
    let c := c.setStatus .N (c.acc &&& 0x80 != 0)
    some c
  | .ASL =>
    match (if addrMode = .implicit then some (c.acc, c) else c.read oprandAddr) with
    | none => none
    | some (oprand2, c) =>
      let tmp := oprand2 <<< 1
      let c := c.setStatus .C (oprand2 &&& 0x80 != 0)
      let c := c.setStatus .Z (tmp &&& 0xFF == 0)
      let c := c.setStatus .N (tmp &&& 0x80 != 0)
      let result := tmp &&& 0xFF
      if addrMode = .implicit then some { c with acc := result }
      else c.write oprandAddr result
  | .BCC => some (if c.getStatus .C = false then c.handleBranching oprandAddr else c)
  | .BCS => some (if c.getStatus .C = true then c.handleBranching oprandAddr else c)
  | .BEQ => some (if c.getStatus .Z = true then c.handleBranching oprandAddr else c)
  | .BIT =>
    let tmp := oprand &&& c.acc
    let c := c.setStatus .Z (tmp == 0)
    let c := c.setStatus .N (oprand &&& 0x80 != 0)
    let c := c.setStatus .V (oprand &&& 0x40 != 0)
    some c
  | .BMI => some (if c.getStatus .N = true then c.handleBranching oprandAddr else c)
  | .BNE => some (if c.getStatus .Z = false then c.handleBranching oprandAddr else c)
  | .BPL => some (if c.getStatus .N = false then c.handleBranching oprandAddr else c)
  | .BRK =>
    if c.pc + 1 ≤ 0xFFFF then
      let c := { c with pc := c.pc + 1 }
      let c := c.setStatus .I true
      match c.write (0x0100 + c.sp) ((c.pc >>> 8) &&& 0x00FF) with
      | none => none
      | some c =>
      if c.sp = 0 then none else
      let c := { c with sp := c.sp - 1 }
      match c.write (0x0100 + c.sp) (c.pc &&& 0x00FF) with
      | none => none
      | some c =>
      if c.sp = 0 then none else
      let c := { c with sp := c.sp - 1 }
      let c := c.setStatus .B true
      match c.write (0x0100 + c.sp) c.status with
      | none => none
      | some c =>
      if c.sp = 0 then none else
      let c := { c with sp := c.sp - 1 }
      let c := c.setStatus .B false
      match c.read 0xFFFE with
      | none => none
      | some (lo, c) =>
      match c.read 0xFFFF with
      | none => none
      | some (hi, c) => some { c with pc := lo ||| (hi <<< 8) }
    else none
  | .BVC => some (if c.getStatus .V = false then c.handleBranching oprandAddr else c)
  | .BVS => some (if c.getStatus .V = true then c.handleBranching oprandAddr else c)
  | .CLC => some (c.setStatus .C false)
  | .CLD => some (c.setStatus .D false)
  | .CLI => some (c.setStatus .I false)
  | .CLV => some (c.setStatus .V false)
  | .CMP =>
    let result := u8wrapSub c.acc oprand
    let c := c.setStatus .C (decide (c.acc ≥ oprand))
    some (c.updateStatusZN result)
  | .CPX =>
    let result := u8wrapSub c.regX oprand
    let c := c.setStatus .C (decide (c.regX ≥ oprand))
    some (c.updateStatusZN result)
  | .CPY =>
    let result := u8wrapSub c.regY oprand
    let c := c.setStatus .C (decide (c.regY ≥ oprand))
    some (c.updateStatusZN result)
  | .DEC =>
    let result := u8wrapSub oprand 1
    match c.write oprandAddr result with
    | none => none
    | some c => some (c.updateStatusZN result)
  | .DEX =>
    let c := { c with regX := u8wrapSub c.regX 1 }
    some (c.updateStatusZN c.regX)
  | .DEY =>
    let c := { c with regY := u8wrapSub c.regY 1 }
    some (c.updateStatusZN c.regY)
  | .EOR =>
    let result := c.acc ^^^ oprand
    let c := { c with acc := result }
    some (c.updateStatusZN result)
  | .INC =>
    let result := u8wrapAdd oprand 1
    match c.write oprandAddr result with
    | none => none
    | some c => some (c.updateStatusZN result)
  | .INX =>
    let c := { c with regX := u8wrapAdd c.regX 1 }
    some (c.updateStatusZN c.regX)
  | .INY =>
    let c := { c with regY := u8wrapAdd c.regY 1 }
    some (c.updateStatusZN c.regY)
  | .JMP =>
    if addrMode.size ≤ c.pc then
      match c.readU16 (c.pc - addrMode.size) with
      | none => none
      | some (addrBeforeIndirect, c) =>
        match (if addrMode = .indirect then
                 let aAddr := addrBeforeIndirect
                 let bAddr := if aAddr &&& 0x00FF = 0x00FF then aAddr &&& 0xFF00
                              else u16wrapAdd addrBeforeIndirect 1
                 match c.read aAddr with
                 | none => none
                 | some (a, c) =>
                 match c.read bAddr with
                 | none => none
                 | some (b2, c) => some (a ||| (b2 <<< 8), c)
               else some (inst.oprandAddr, c)) with
        | none => none
        | some (target, c) => some { c with pc := target }
    else none
  | .JSR =>
    if 1 ≤ c.pc then
      let c := { c with pc := c.pc - 1 }
      match c.write (0x0100 + c.sp) ((c.pc >>> 8) &&& 0x00FF) with
      | none => none
      | some c =>
      if c.sp = 0 then none else
      let c := { c with sp := c.sp - 1 }
      match c.write (0x0100 + c.sp) (c.pc &&& 0x00FF) with
      | none => none
      | some c =>
      if c.sp = 0 then none else
      let c := { c with sp := c.sp - 1 }
      some { c with pc := oprandAddr }
    else none
  | .LDA =>
    let c := { c with acc := oprand }
    some (c.updateStatusZN oprand)
  | .LDX =>
    let c := { c with regX := oprand }
    some (c.updateStatusZN oprand)
  | .LDY =>
    let c := { c with regY := oprand }
    some (c.updateStatusZN oprand)
  | .LSR =>
    match (if addrMode = .implicit then some (c.acc, c) else c.read oprandAddr) with
    | none => none
    | some (oprand2, c) =>
      let c := c.setStatus .C (oprand2 &&& 0x01 == 1)
      let result := oprand2 >>> 1
      let c := c.updateStatusZN result
      if addrMode = .implicit then some { c with acc := result }
      else c.write oprandAddr result
  | .NOP => some c
  | .ORA =>
    let c := { c with acc := c.acc ||| oprand }
    some (c.updateStatusZN c.acc)
  | .PHA => c.stackPush c.acc
  | .PHP =>
    let cloned := statusTurnOn (statusTurnOn c.status .B) .U
    let c := c.setStatus .B false
    let c := c.setStatus .U false
    c.stackPush cloned
  | .PLA =>
    match c.stackPop with
    | none => none
    | some (v, c) =>
      let c := { c with acc := v }
      some (c.updateStatusZN c.acc)
  | .PLP =>
    match c.stackPop with
    | none => none
    | some (v, c) =>
      let c := { c with status := v }
      let c := c.setStatus .B false
      some (c.setStatus .U true)
  | .ROL =>
    match (if addrMode = .implicit then some (c.acc, c) else c.read oprandAddr) with
    | none => none
    | some (oprand2, c) =>
      let cBits : Nat := if c.getStatus .C then 1 else 0
      let tmp := ((oprand2 <<< 1) &&& 0xFF) ||| cBits
      let c := c.setStatus .C (tmp &&& 0xFF00 != 0)
      let result := tmp &&& 0xFF
      let c := c.updateStatusZN result
      let c := c.setStatus .C (oprand2 &&& 0x80 != 0)
      if addrMode = .implicit then some { c with acc := result }
      else c.write oprandAddr result
  | .ROR =>
    match (if addrMode = .implicit then some (c.acc, c) else c.read oprandAddr) with
    | none => none
    | some (oprand2, c) =>
      let cBits : Nat := if c.getStatus .C then 1 else 0
      let tmp := (cBits <<< 7) ||| (oprand2 >>> 1)
      let result := tmp &&& 0xFF
      let c := c.updateStatusZN result
      let c := c.setStatus .C (oprand2 &&& 1 != 0)
      if addrMode = .implicit then some { c with acc := result }
      else c.write oprandAddr result
  | .RTI =>
    match c.stackPop with
    | none => none
    | some (v, c) =>
      let c := { c with status := v }
      let c := { c with status := statusTurnOff c.status .B }
      let c := { c with status := statusTurnOn c.status .U }
      match c.stackPopU16 with
      | none => none
      | some (pc2, c) => some { c with pc := pc2 }
  | .RTS =>
    match c.stackPopU16 with
    | none => none
    | some (v, c) => some { c with pc := u16wrapAdd v 1 }
  | .SEC => some { c with status := statusTurnOn c.status .C }
  | .SED => some { c with status := statusTurnOn c.status .D }
  | .SEI => some { c with status := statusTurnOn c.status .I }
  | .STA => c.write oprandAddr c.acc
  | .STX => c.write oprandAddr c.regX
  | .STY => c.write oprandAddr c.regY
  | .TAX =>
    let c := { c with regX := c.acc }
    some (c.updateStatusZN c.regX)
  | .TAY =>
    let c := { c with regY := c.acc }
    some (c.updateStatusZN c.regY)
  | .TSX =>
    let c := { c with regX := c.sp }
    some (c.updateStatusZN c.regX)
  | .TXA =>
    let c := { c with acc := c.regX }
    some (c.updateStatusZN c.acc)
  | .TXS => some { c with sp := c.regX }
  | .TYA =>
    let c := { c with acc := c.regY }
    some (c.updateStatusZN c.acc)
  | .LAX =>
    let c := { c with acc := oprand }
    let c := { c with regX := c.acc }
    some (c.updateStatusZN c.acc)
  | .SAX => c.write oprandAddr (c.acc &&& c.regX)
  | .DCP =>
    let result := u8wrapSub oprand 1
    match c.write oprandAddr result with
    | none => none
    | some c =>
      let c := c.setStatus .C (decide (c.acc ≥ result))
      some (c.updateStatusZN (u8wrapSub c.acc result))
  | .ISB =>
    let result := u8wrapAdd oprand 1
    match c.write oprandAddr result with
    | none => none
    | some c =>
      let c := c.updateStatusZN result
      let value := result ^^^ 0x00FF
      let carry : Nat := if c.getStatus .C then 1 else 0
      let tmp := c.acc + value + carry
      let c := c.setStatus .C (tmp &&& 0xFF00 != 0)
      let c := c.setStatus .Z (tmp &&& 0x00FF == 0)
      let overflow : Bool := (tmp ^^^ c.acc) &&& (tmp ^^^ value) &&& 0x0080 != 0
      let c := c.setStatus .V overflow
      let c := c.setStatus .N (tmp &&& 0x0080 != 0)
      some { c with acc := tmp &&& 0x00FF }
  | .SLO =>
    match (if addrMode = .implicit then some (c.acc, c) else c.read oprandAddr) with
    | none => none
    | some (oprand2, c) =>
      let tmp := oprand2 <<< 1
      let c := c.setStatus .C (oprand2 &&& 0x80 != 0)
      let c := c.setStatus .Z (tmp &&& 0xFF == 0)
      let c := c.setStatus .N (tmp &&& 0x80 != 0)
      let result := tmp &&& 0xFF
      match (if addrMode = .implicit then some { c with acc := result }
             else c.write oprandAddr result) with
      | none => none
      | some c =>
        let c := { c with acc := c.acc ||| result }
        some (c.updateStatusZN c.acc)
  | .RLA =>
    match (if addrMode = .implicit then some (c.acc, c) else c.read oprandAddr) with
    | none => none
    | some (oprand2, c) =>
      let cBits : Nat := if c.getStatus .C then 1 else 0
      let tmp := ((oprand2 <<< 1) &&& 0xFF) ||| cBits
      let c := c.setStatus .C (tmp &&& 0xFF00 != 0)
      let result := tmp &&& 0xFF
      let c := c.updateStatusZN result
      let c := c.setStatus .C (oprand2 &&& 0x80 != 0)
      match (if addrMode = .implicit then some { c with acc := result }
             else c.write oprandAddr result) with
      | none => none
      | some c =>
        let c := { c with acc := c.acc &&& result }
        let c := c.setStatus .Z (c.acc == 0)
        some (c.setStatus .N (c.acc &&& 0x80 != 0))
  | .SRE =>
    match (if addrMode = .implicit then some (c.acc, c) else c.read oprandAddr) with
    | none => none
    | some (oprand2, c) =>
      let c := c.setStatus .C (oprand2 &&& 0x01 == 1)
      let result := oprand2 >>> 1
      let c := c.updateStatusZN result
      match (if addrMode = .implicit then some { c with acc := result }
             else c.write oprandAddr result) with
      | none => none
      | some c =>
        let result2 := c.acc ^^^ result
        let c := { c with acc := result2 }
        some (c.updateStatusZN result2)
  | .RRA =>
    match (if addrMode = .implicit then some (c.acc, c) else c.read oprandAddr) with
    | none => none
    | some (oprand2, c) =>
      let cBits : Nat := if c.getStatus .C then 1 else 0
      let tmp := (cBits <<< 7) ||| (oprand2 >>> 1)
      let resultRor := tmp &&& 0xFF
      let c := c.updateStatusZN resultRor
      let c := c.setStatus .C (oprand2 &&& 1 != 0)
      match (if addrMode = .implicit then some { c with acc := resultRor }
             else c.write oprandAddr resultRor) with
      | none => none
      | some c =>
        let carry : Nat := if c.getStatus .C then 1 else 0
        let resultAdc := u8wrapAdd (u8wrapAdd c.acc resultRor) carry
        let tmp2 := c.acc + resultRor + carry
        let c := c.setStatus .C (decide (tmp2 > 0xFF))
        let c := c.setStatus .Z (resultAdc == 0)
        let overflow : Bool := (resultAdc ^^^ resultRor) &&& (c.acc ^^^ resultAdc) &&& 0x0080 != 0
        let c := c.setStatus .V overflow
        let c := c.setStatus .N (tmp2 &&& 0x0080 != 0)
        some { c with acc := resultAdc }

/-- Embedding of `CPU::nmi`: push PCH, PCL and the status byte (B cleared,
U and I set), load the vector at $FFFA, charge 8 cycles.  The inline
`self.sp -= 1` decrements are strict (overflow at SP = 0). -/
def CPU.nmi (c : CPU) : Option (CPU × Nat) :=
  match c.write (0x0100 + c.sp) ((c.pc >>> 8) &&& 0x00FF) with
  | none => none
  | some c =>
  if c.sp = 0 then none else
  let c := { c with sp := c.sp - 1 }
  match c.write (0x0100 + c.sp) (c.pc &&& 0x00FF) with
  | none => none
  | some c =>
  if c.sp = 0 then none else
  let c := { c with sp := c.sp - 1 }
  let c := c.setStatus .B false
  let c := c.setStatus .U true
  let c := c.setStatus .I true
  match c.write (0x0100 + c.sp) c.status with
  | none => none
  | some c =>
  if c.sp = 0 then none else
  let c := { c with sp := c.sp - 1 }
  match c.read 0xFFFA with
  | none => none
  | some (lo, c) =>
  match c.read 0xFFFB with
  | none => none
  | some (hi, c) => some ({ c with pc := (hi <<< 8) ||| lo }, 8)

/-- Embedding of `CPU::execute_next_instruction`: force the Unused status
bit high, fetch and decode, set the cycle countdown, execute, then force
the Unused bit high again. -/
def CPU.executeNextInstruction (c : CPU) : Option CPU :=
  let c := c.setStatus .U true
  match c.fetchNextInstruction with
  | none => none
  | some (inst, c) =>
    let c := { c with cycles := inst.cycles }
    match c.executeInst inst with
    | none => none
    | some c => some (c.setStatus .U true)

/-! ### Auxiliary definitions: iteration helpers and test states -/

/-- Iterated `Joypad::read`: the list of the first `n` read results and the
final state. -/
def Joypad.readSeq (j : Joypad) : Nat → List Nat × Joypad
  | 0 => ([], j)
  | n + 1 => (j.read.1 :: (j.read.2.readSeq n).1, (j.read.2.readSeq n).2)

/-- A concrete PPU state (power-on values, an 8 KiB CHR-ROM) used by
witnesses and counterexamples. -/
def ppu0 : PPU :=
  { chrRom := List.replicate 8192 0, vram := List.replicate 2048 0,
    palette := fun _ => 0, mirror := .horizontal,
    addrReg := AddrRegister.new, ctrlReg := CtrlRegister.new,
    statusReg := ⟨0⟩, scrollReg := ScrollRegister.new, maskReg := MaskRegister.new,
    oamData := fun _ => 0, oamAddr := 0, dataBuf := 0, nmi := false,
    scanlines := 0, cycles := 0 }

/-- A concrete mapper-0 cartridge with one PRG bank and one CHR bank; only
the low ROM offsets are ever touched by the tests, so short ROM vectors
(legal for the `Cartridge` type, compare `Cartridge::new_dummy`) keep
evaluation cheap. -/
def cart0 : Cartridge := ⟨0, ⟨1, 1⟩, .horizontal, 1, 1, [0x11, 0x12], [0x22, 0x23]⟩

/-- A mapper-0 cartridge holding a small program at $8000 (padded with a
few zero bytes so the operand prefetch reads stay in range). -/
def cartOfProgram (prog : List Nat) : Cartridge :=
  ⟨0, ⟨1, 1⟩, .horizontal, 1, 1, prog ++ List.replicate 8 0, List.replicate 8192 0⟩

/-- A bus over `cartOfProgram` with zeroed RAM and idle DMA. -/
def busOfProgram (prog : List Nat) : Bus :=
  { cpuRam := fun _ => 0, cart := cartOfProgram prog, ppu := ppu0,
    joypad1 := Joypad.new, joypad2 := Joypad.new, totalSystemCycles := 0,
    dmaPage := 0, dmaAddr := 0, dmaData := 0, dmaDummy := true, dmaTransfer := false }

/-- A CPU at $8000 over `busOfProgram`, with a chosen stack pointer. -/
def cpuOfProgram (prog : List Nat) (sp : Nat) : CPU :=
  { pc := 0x8000, sp := sp, acc := 0, regX := 0, regY := 0, status := 0x24,
    cycles := 0, totalCycles := 0, bus := busOfProgram prog }

/-! ### Bit-arithmetic helper lemmas -/

theorem or_two_pow_and_self (a n : Nat) : (a ||| 2 ^ n) &&& 2 ^ n = 2 ^ n := by
  apply Nat.eq_of_testBit_eq
  intro i
  simp only [Nat.testBit_and, Nat.testBit_or, Nat.testBit_two_pow]
  by_cases h : n = i <;> simp [h]

theorem and255_eq_mod (n : Nat) : n &&& 255 = n % 256 := by
  have h := Nat.and_pow_two_sub_one_eq_mod n 8
  norm_num at h; omega

theorem and4095_eq_mod (n : Nat) : n &&& 4095 = n % 4096 := by
  have h := Nat.and_pow_two_sub_one_eq_mod n 12
  norm_num at h; omega

theorem and16383_eq_mod (n : Nat) : n &&& 16383 = n % 16384 := by
  have h := Nat.and_pow_two_sub_one_eq_mod n 14
  norm_num at h; omega

theorem and128_ne_iff_testBit (x : Nat) : (x &&& 128 != 0) = x.testBit 7 := by
  have h := Nat.and_two_pow x 7
  norm_num at h
  rw [h]
  rcases x.testBit 7 with _ | _ <;> simp

theorem testBit7_mod256 (x : Nat) : (x % 256).testBit 7 = x.testBit 7 := by
  have h := Nat.testBit_mod_two_pow x 8 7
  norm_num at h
  exact h

theorem and_and128_ne (x y : Nat) : (x &&& y &&& 128 != 0) = (x.testBit 7 && y.testBit 7) := by
  rw [and128_ne_iff_testBit, Nat.testBit_and]

/-- The signed-overflow flag computed the ADC way and the SBC way agree on
bit 7 of the 16-bit sum. -/
theorem vflag_comm (t a m : Nat) :
    ((t ^^^ a) &&& (t ^^^ m) &&& 128 != 0)
      = ((t &&& 255 ^^^ m) &&& (a ^^^ t &&& 255) &&& 128 != 0) := by
  rw [and_and128_ne, and_and128_ne]
  simp only [Nat.testBit_xor, and255_eq_mod, testBit7_mod256]
  cases ht : t.testBit 7 <;> cases ha2 : a.testBit 7 <;> cases hm2 : m.testBit 7 <;> rfl

theorem testBit_65280 (k : Nat) (h : k < 16) : Nat.testBit 65280 k = decide (8 ≤ k) := by
  interval_cases k <;> decide

theorem testBit_255 (k : Nat) (h : k < 16) : Nat.testBit 255 k = decide (k < 8) := by
  interval_cases k <;> decide

/-- Splitting a 16-bit value into its high and low byte and recombining
them through shift and or is the identity. -/
theorem addr_recompose (u : Nat) (hu : u < 65536) :
    (((u &&& 0xFF00) >>> 8) <<< 8) ||| (u &&& 0xFF) = u := by
  apply Nat.eq_of_testBit_eq
  intro i
  by_cases h16 : i < 16
  · interval_cases i <;>
      simp [Nat.testBit_or, Nat.testBit_shiftLeft, Nat.testBit_shiftRight, Nat.testBit_and,
        testBit_65280, testBit_255]
  · have hu2 : u.testBit i = false := by
      apply Nat.testBit_lt_two_pow
      calc u < 65536 := hu
        _ ≤ 2 ^ i := by
          have h2 : (16 : Nat) ≤ i := by omega
          calc (65536 : Nat) = 2 ^ 16 := by norm_num
            _ ≤ 2 ^ i := Nat.pow_le_pow_right (by norm_num) h2
    simp only [Nat.testBit_or, Nat.testBit_shiftLeft, Nat.testBit_shiftRight, Nat.testBit_and]
    rw [show 8 + (i - 8) = i from by omega]
    simp [hu2]

theorem AddrRegister.get_set (r : AddrRegister) (u : Nat) (hu : u < 65536) :
    (r.set u).get = u := by
  unfold AddrRegister.set AddrRegister.get
  exact addr_recompose u hu

theorem AddrRegister.get_inc (r : AddrRegister) (d : Nat) :
    (r.inc d).get = (r.get + d) % 65536 := by
  unfold AddrRegister.inc
  exact AddrRegister.get_set r _ (Nat.mod_lt _ (by norm_num))

/-! ### Claim C1 -/

/-- C1: the claim says mapper-0 CPU writes to $8000-$FFFF are discarded and
PPU-side writes to $0000-$1FFF are discarded unless the cartridge has zero
CHR banks.  The code does neither: `Cartridge::cpu_write` maps $8000
through the read mapping and stores the byte into PRG-ROM (returning
`true`), `Cartridge::ppu_write` likewise stores into CHR-ROM although the
cartridge has one CHR bank, and a PPU data-register write with the VRAM
address at $0042 panics ("writing to CHR Rom is not supported").  Only the
never-called `Mapper0::ppu_write_mapping` implements the claimed
zero-CHR-banks rule.  This theorem evaluates the code at those failing
inputs. -/
theorem mapper0_rom_write_code_bug :
    (cart0.cpuWrite 0x8000 0xAB).map (fun r => (r.2, r.1.prgRom.get? 0)) = some (true, some 0xAB)
    ∧ (cart0.ppuWrite 0x0000 0xAB).map (fun r => (r.2, r.1.chrRom.get? 0)) = some (true, some 0xAB)
    ∧ ({ ppu0 with addrReg := ⟨0x00, 0x42, true⟩ } : PPU).writeDataReg 0x55 = none
    ∧ Mapper0.ppuWriteMapping ⟨1, 1⟩ 0x0042 = none
    ∧ Mapper0.ppuWriteMapping ⟨1, 0⟩ 0x0042 = some 0x0042 :=
  ⟨rfl, rfl, rfl, rfl, rfl⟩

/-! ### Claim C3 -/

/-- C3: the claim says every push decrements SP wrapping mod 256, so with
SP = 0 the pushes done by JSR, BRK and NMI servicing wrap SP to 255 rather
than failing.  `CPU::stack_push` (used by PHA/PHP) does wrap — executing
PHA at SP = 0 leaves SP = 255 — but JSR, BRK and `CPU::nmi` decrement with
a plain `self.sp -= 1`, which overflows at SP = 0 instead of wrapping:
executing JSR $8005 (and servicing an NMI) from SP = 0 aborts.  This
theorem evaluates the code at those inputs. -/
theorem stack_pointer_wrap_code_bug :
    (cpuOfProgram [0x20, 0x05, 0x80] 0).executeNextInstruction = none
    ∧ ((cpuOfProgram [0x48] 0).executeNextInstruction).map (fun c => c.sp) = some 255
    ∧ (cpuOfProgram [0x20, 0x05, 0x80] 0).nmi = none
    ∧ ((cpuOfProgram [0x00, 0x00, 0x00] 0).executeNextInstruction) = none :=
  ⟨rfl, rfl, rfl, rfl⟩

/-! ### Claim C5 -/

theorem getStatus_setU (c : CPU) : (c.setStatus .U true).getStatus .U = true := by
  have h := or_two_pow_and_self c.status 5
  norm_num at h
  simp [CPU.setStatus, CPU.getStatus, statusSetBit, statusTurnOn, StatusBit.bitOffset]
  omega

/-- C5: after every completed instruction — whatever opcode the spec table
decoded and whatever the starting CPU state, including PHP, PLP and RTI
which push or rewrite the packed status byte — bit 5 (Unused) of the CPU
status register is 1, because `execute_next_instruction` forces the bit
high after the dispatch returns. -/
theorem unused_status_bit_high_after_instruction (c c2 : CPU)
    (h : c.executeNextInstruction = some c2) : c2.getStatus .U = true := by
  unfold CPU.executeNextInstruction at h
  dsimp only at h
  split at h
  · exact absurd h (by simp)
  · split at h
    · exact absurd h (by simp)
    · rename_i c3 heq
      rw [Option.some_inj] at h
      subst h
      exact getStatus_setU c3

/-- Witness for C5: a concrete NOP instruction executes successfully and
the theorem yields Unused = 1 afterwards. -/
theorem unused_status_bit_high_witness :
    ((cpuOfProgram [0xEA] 0xFD).executeNextInstruction).map (fun c => c.getStatus .U)
      = some true := by
  cases h : (cpuOfProgram [0xEA] 0xFD).executeNextInstruction with
  | none =>
    have hs : ((cpuOfProgram [0xEA] 0xFD).executeNextInstruction).isSome = true := rfl
    rw [h] at hs; cases hs
  | some c3 => simpa using unused_status_bit_high_after_instruction _ c3 h

/-! ### Claim C7 -/

/-- Palette mirror pairs named by the claim (alias address, base address). -/
def palettePairs : List (Nat × Nat) :=
  [(0x3F10, 0x3F00), (0x3F14, 0x3F04), (0x3F18, 0x3F08), (0x3F1C, 0x3F0C)]

/-- Two palette addresses that the claim says alias each other, in either
direction. -/
def paletteAliases (a b : Nat) : Prop := (a, b) ∈ palettePairs ∨ (b, a) ∈ palettePairs

/-- C7: for every byte value, a data-register write to $3F10/$3F14/$3F18/
$3F1C is observable by a subsequent read at $3F00/$3F04/$3F08/$3F0C and
vice versa: setting the VRAM address to one member of a pair, writing, then
reading with the address at the other member returns the written byte
(masked to the 6 palette bits, greyscale off). -/
theorem palette_alias_write_read (p : PPU) (v a b : Nat)
    (hal : paletteAliases a b)
    (haddr : p.addrReg.get = a)
    (hgray : p.maskReg.grayscale = false) :
    ∀ r2 : AddrRegister, r2.get = b →
      (p.writeDataReg v).bind
          (fun p1 => (PPU.readDataReg { p1 with addrReg := r2 }).map Prod.fst)
        = some (v &&& 0x3F) := by
  have main : ∀ (pa pb : Nat), paletteMirrorIdx pa = paletteMirrorIdx pb →
      0x3F00 ≤ pa → pa ≤ 0x3FFF → 0x3F00 ≤ pb → pb ≤ 0x3FFF → p.addrReg.get = pa →
      ∀ r2 : AddrRegister, r2.get = pb →
      (p.writeDataReg v).bind
          (fun p1 => (PPU.readDataReg { p1 with addrReg := r2 }).map Prod.fst)
        = some (v &&& 0x3F) := by
    intro pa pb hmir h1 h2 h3 h4 haddr2 r2 hr2
    unfold PPU.writeDataReg
    rw [haddr2]
    rw [if_neg (by omega), if_neg (by omega), if_pos (by omega)]
    dsimp only
    rw [Option.some_bind]
    unfold PPU.readDataReg
    rw [hr2]
    rw [show pb &&& 0x3FFF = pb from by rw [and16383_eq_mod]; omega]
    rw [if_neg (by omega), if_neg (by omega)]
    rw [show p.maskReg.grayscale = false from hgray]
    rw [if_neg (by simp)]
    simp [← hmir]
  rcases hal with hmem | hmem <;>
    simp only [palettePairs, List.mem_cons, List.not_mem_nil, or_false,
      Prod.mk.injEq] at hmem <;>
    rcases hmem with ⟨rfl, rfl⟩ | ⟨rfl, rfl⟩ | ⟨rfl, rfl⟩ | ⟨rfl, rfl⟩
  · exact main _ _ (by decide) (by omega) (by omega) (by omega) (by omega) haddr
  · exact main _ _ (by decide) (by omega) (by omega) (by omega) (by omega) haddr
  · exact main _ _ (by decide) (by omega) (by omega) (by omega) (by omega) haddr
  · exact main _ _ (by decide) (by omega) (by omega) (by omega) (by omega) haddr
  · exact main _ _ (by decide) (by omega) (by omega) (by omega) (by omega) haddr
  · exact main _ _ (by decide) (by omega) (by omega) (by omega) (by omega) haddr
  · exact main _ _ (by decide) (by omega) (by omega) (by omega) (by omega) haddr
  · exact main _ _ (by decide) (by omega) (by omega) (by omega) (by omega) haddr

/-- Witness for C7: write $2A at $3F10, read it back at $3F00. -/
theorem palette_alias_write_read_witness :
    paletteAliases 0x3F10 0x3F00
    ∧ (({ ppu0 with addrReg := ⟨0x3F, 0x10, true⟩ } : PPU).writeDataReg 0x2A).bind
        (fun p1 => (PPU.readDataReg { p1 with addrReg := (⟨0x3F, 0x00, true⟩ : AddrRegister) }).map
          Prod.fst)
      = some (0x2A &&& 0x3F) :=
  ⟨Or.inl (by decide),
   palette_alias_write_read { ppu0 with addrReg := ⟨0x3F, 0x10, true⟩ } 0x2A 0x3F10 0x3F00
     (Or.inl (by decide)) rfl rfl ⟨0x3F, 0x00, true⟩ rfl⟩

/-! ### Claim C8 -/

/-- C8: for every byte-valued accumulator, operand, carry flag and CPU
state, the SBC arm produces exactly the same machine state — accumulator
and C, Z, V, N flags included — as the ADC arm run on the one's complement
of the operand. -/
theorem sbc_equals_adc_complement (c : CPU) (oprand : Nat)
    (hacc : c.acc ≤ 255) (hop : oprand ≤ 255) :
    c.sbcArm oprand = c.adcArm (oprand ^^^ 0x00FF) := by
  unfold CPU.sbcArm CPU.adcArm
  simp only [CPU.setStatus, CPU.getStatus]
  set a := c.acc with ha
  set m := oprand ^^^ 255 with hm
  set cb : Nat := if (c.status &&& 1 <<< StatusBit.C.bitOffset != 0) = true then 1 else 0 with hcb
  have hcb1 : cb ≤ 1 := by rw [hcb]; split <;> simp
  have hmb : m ≤ 255 := by
    rw [hm]
    have := Nat.xor_lt_two_pow (show oprand < 2 ^ 8 by omega) (show 255 < 2 ^ 8 by norm_num)
    norm_num at this; omega
  have hres : u8wrapAdd (u8wrapAdd a m) cb = (a + m + cb) &&& 255 := by
    rw [and255_eq_mod]
    unfold u8wrapAdd
    omega
  rw [hres]
  set t := a + m + cb with ht
  have htb : t ≤ 511 := by omega
  have hC : ∀ u, u ≤ 511 → ((u &&& 65280 != 0) = decide (u > 255)) := by decide
  rw [hC t htb, vflag_comm t a m]

/-- Witness for C8: a concrete state with accumulator 0 and operand 3. -/
theorem sbc_equals_adc_complement_witness :
    (cpuOfProgram [0xEA] 0xFD).acc ≤ 255
    ∧ (cpuOfProgram [0xEA] 0xFD).sbcArm 3 = (cpuOfProgram [0xEA] 0xFD).adcArm (3 ^^^ 0x00FF) :=
  ⟨by decide, sbc_equals_adc_complement _ 3 (by decide) (by decide)⟩

/-! ### Claim C9 -/

theorem readSeq_past (j : Joypad) (h : j.nextBtnIdx > 7) :
    ∀ n, j.readSeq n = (List.replicate n 1, j) := by
  intro n
  induction n with
  | zero => rfl
  | succ k ih =>
    have hr : j.read = (1, j) := by rw [Joypad.read, if_pos h]
    rw [Joypad.readSeq, hr]
    simp only
    rw [ih]
    rfl

/-- C9: for every 8-bit button state, while the strobe is on (bit 0 of the
last joypad write = 1) every read returns bit 0 of the button state (button
A) and leaves the joypad unchanged, and the write resets the read index;
with the strobe then turned off, eight successive reads return the A, B,
Select, Start, Up, Down, Left, Right bits in that order and every
subsequent read returns 1. -/
theorem joypad_strobe_and_serial (j : Joypad) (v1 v0 : Nat) (n m : Nat)
    (h1 : v1 &&& 1 = 1) (h0 : v0 &&& 1 = 0) :
    ((j.write v1).readSeq n
        = (List.replicate n (if Joypad.isBtnOn j.status 0 then 1 else 0), j.write v1))
    ∧ (j.write v1).nextBtnIdx = 0
    ∧ (((j.write v1).write v0).readSeq (m + 8)).fst =
        [if Joypad.isBtnOn j.status 0 then 1 else 0,
         if Joypad.isBtnOn j.status 1 then 1 else 0,
         if Joypad.isBtnOn j.status 2 then 1 else 0,
         if Joypad.isBtnOn j.status 3 then 1 else 0,
         if Joypad.isBtnOn j.status 4 then 1 else 0,
         if Joypad.isBtnOn j.status 5 then 1 else 0,
         if Joypad.isBtnOn j.status 6 then 1 else 0,
         if Joypad.isBtnOn j.status 7 then 1 else 0] ++ List.replicate m 1 := by
  have hw1 : j.write v1 = { strobe := true, nextBtnIdx := 0, status := j.status } := by
    rw [Joypad.write]
    simp [h1]
  have hw0 : (j.write v1).write v0 = { strobe := false, nextBtnIdx := 0, status := j.status } := by
    rw [hw1, Joypad.write]
    simp [h0]
  refine ⟨?_, ?_, ?_⟩
  · have hr : (j.write v1).read = ((if Joypad.isBtnOn j.status 0 then 1 else 0), j.write v1) := by
      rw [hw1, Joypad.read]
      simp [hw1]
    induction n with
    | zero => rfl
    | succ k ih =>
      rw [Joypad.readSeq, hr]
      simp only
      rw [ih]
      rfl
  · rw [hw1]
  · rw [hw0]
    have step : ∀ (idx : Nat), idx ≤ 7 →
        (Joypad.read { strobe := false, nextBtnIdx := idx, status := j.status })
          = ((if Joypad.isBtnOn j.status idx then 1 else 0),
             { strobe := false, nextBtnIdx := idx + 1, status := j.status }) := by
      intro idx hidx
      unfold Joypad.read
      dsimp only
      rw [if_neg (by omega), if_pos (by exact ⟨rfl, hidx⟩)]
    have hpast := readSeq_past { strobe := false, nextBtnIdx := 8, status := j.status }
      (by norm_num)
    rw [show m + 8 = ((((((((m + 0) + 1) + 1) + 1) + 1) + 1) + 1) + 1) + 1 from by omega]
    rw [Joypad.readSeq, step 0 (by omega)]
    simp only
    rw [Joypad.readSeq, step 1 (by omega)]
    simp only
    rw [Joypad.readSeq, step 2 (by omega)]
    simp only
    rw [Joypad.readSeq, step 3 (by omega)]
    simp only
    rw [Joypad.readSeq, step 4 (by omega)]
    simp only
    rw [Joypad.readSeq, step 5 (by omega)]
    simp only
    rw [Joypad.readSeq, step 6 (by omega)]
    simp only
    rw [Joypad.readSeq, step 7 (by omega)]
    simp only
    rw [show (7 : Nat) + 1 = 8 from rfl]
    rw [hpast m]
    rfl

/-- Witness for C9: button state 0b11001010, strobe on then off, two strobe
reads and three post-serial reads. -/
theorem joypad_strobe_and_serial_witness :
    (1 : Nat) &&& 1 = 1 ∧ (0 : Nat) &&& 1 = 0
    ∧ (((⟨false, 0, 0xCA⟩ : Joypad).write 1).readSeq 2
        = (List.replicate 2 (if Joypad.isBtnOn 0xCA 0 then 1 else 0), (⟨false, 0, 0xCA⟩ : Joypad).write 1))
    ∧ ((((⟨false, 0, 0xCA⟩ : Joypad).write 1).write 0).readSeq (3 + 8)).fst =
        [if Joypad.isBtnOn 0xCA 0 then 1 else 0,
         if Joypad.isBtnOn 0xCA 1 then 1 else 0,
         if Joypad.isBtnOn 0xCA 2 then 1 else 0,
         if Joypad.isBtnOn 0xCA 3 then 1 else 0,
         if Joypad.isBtnOn 0xCA 4 then 1 else 0,
         if Joypad.isBtnOn 0xCA 5 then 1 else 0,
         if Joypad.isBtnOn 0xCA 6 then 1 else 0,
         if Joypad.isBtnOn 0xCA 7 then 1 else 0] ++ List.replicate 3 1 :=
  ⟨by decide, by decide,
   (joypad_strobe_and_serial ⟨false, 0, 0xCA⟩ 1 0 2 3 (by decide) (by decide)).1,
   (joypad_strobe_and_serial ⟨false, 0, 0xCA⟩ 1 0 2 3 (by decide) (by decide)).2.2⟩

/-! ### Claim C10 -/

/-- C10: a CPU write to $2004 stores the byte at the OAM address pointer
and then increments the pointer with a plain non-wrapping `u8` addition:
it succeeds exactly when the pointer is below 255, and at pointer value
255 the increment overflows (the embedding returns `none`) instead of
wrapping the pointer to 0. -/
theorem oam_data_write_strict_increment (p : PPU) (v : Nat) :
    (p.oamAddr < 255 →
      p.cpuWrite 0x2004 v =
        some { p with oamData := fun i => if i = p.oamAddr then v else p.oamData i,
                      oamAddr := p.oamAddr + 1 })
    ∧ (p.oamAddr = 255 → p.cpuWrite 0x2004 v = none) := by
  constructor
  · intro h
    unfold PPU.cpuWrite
    rw [if_pos (by omega)]
    show p.writeOamData v = _
    unfold PPU.writeOamData
    rw [if_pos h]
  · intro h
    unfold PPU.cpuWrite
    rw [if_pos (by omega)]
    show p.writeOamData v = _
    unfold PPU.writeOamData
    rw [if_neg (by omega)]

/-- Witness for C10: a pointer at 7 accepts the write and moves to 8; a
pointer at 255 overflows. -/
theorem oam_data_write_strict_increment_witness :
    ((({ ppu0 with oamAddr := 7 } : PPU).cpuWrite 0x2004 0x99).map (fun q => (q.oamAddr, q.oamData 7))
        = some (8, 0x99))
    ∧ ({ ppu0 with oamAddr := 255 } : PPU).cpuWrite 0x2004 0x99 = none := by
  constructor
  · rw [(oam_data_write_strict_increment { ppu0 with oamAddr := 7 } 0x99).1 (by decide)]
    rfl
  · exact (oam_data_write_strict_increment { ppu0 with oamAddr := 255 } 0x99).2 rfl

/-! ### Claim C4 -/

/-- A concrete PPU aimed at $3F00 with a marked palette byte ($FF), a marked
data buffer ($55) and a marked nametable byte ($66) at the physical cell
under $2F00 (the address "beneath" $3F00). -/
def ppuC4 : PPU :=
  { ppu0 with addrReg := ⟨0x3F, 0x00, true⟩,
              palette := fun i => if i = 0 then 0xFF else 0,
              dataBuf := 0x55,
              vram := (List.replicate 2048 0).set 0x700 0x66 }

/-- Counterexample to C4: the claim says a $2007 read at $3F00 returns the
palette byte itself and refills the internal buffer with the mirrored-down
nametable byte beneath; at `ppuC4` that predicts result $FF and buffer $66,
but the code returns the masked byte $3F and leaves the buffer at $55 —
the palette path of `read_data_reg` never touches the buffer. -/
theorem palette_read_refill_counterexample :
    (ppuC4.readDataReg).map (fun r => (r.fst, r.snd.dataBuf)) = some (0x3F, 0x55)
    ∧ ((0x3F : Nat), (0x55 : Nat)) ≠ ((0xFF : Nat), (0x66 : Nat)) := ⟨rfl, by decide⟩

/-- C4 as amended: a $2007 read whose VRAM address lies in $3F00-$3FFF
returns the palette-table byte directly (masked to the 6 colour bits, or to
$30 under greyscale) with no one-read delay, and the only state change is
the address auto-increment — in particular the internal read buffer is NOT
refilled. -/
theorem palette_read_direct_no_refill (p : PPU)
    (hpal : 0x3F00 ≤ p.addrReg.get &&& 0x3FFF) :
    p.readDataReg =
      some ((if p.maskReg.grayscale
              then p.palette (paletteMirrorIdx (p.addrReg.get &&& 0x3FFF)) &&& 0x30
              else p.palette (paletteMirrorIdx (p.addrReg.get &&& 0x3FFF)) &&& 0x3F),
            { p with addrReg := p.addrReg.inc p.ctrlReg.getVramAddrInc }) := by
  unfold PPU.readDataReg
  rw [if_neg (by omega), if_neg (by omega)]
  cases hg : p.maskReg.grayscale <;> simp [hg]

/-- Witness for the amended C4: at `ppuC4` the hypothesis holds and the read
returns the masked palette byte while only the address advances. -/
theorem palette_read_direct_no_refill_witness :
    0x3F00 ≤ ppuC4.addrReg.get &&& 0x3FFF
    ∧ ppuC4.readDataReg =
      some ((if ppuC4.maskReg.grayscale
              then ppuC4.palette (paletteMirrorIdx (ppuC4.addrReg.get &&& 0x3FFF)) &&& 0x30
              else ppuC4.palette (paletteMirrorIdx (ppuC4.addrReg.get &&& 0x3FFF)) &&& 0x3F),
            { ppuC4 with addrReg := ppuC4.addrReg.inc ppuC4.ctrlReg.getVramAddrInc }) :=
  ⟨by decide, palette_read_direct_no_refill ppuC4 (by decide)⟩

/-! ### Claim C6 -/

/-- The physical nametable cell named by the claim: mask the address into
the 4 KiB logical nametable space, take the logical nametable number 0-3
and its offset, and apply the table from the claim (horizontal: logical
0,1 to physical A and 2,3 to physical B; vertical: 0,2 to A and 1,3 to B).
Written from the claim, independently of `PPU.getMirroredVramAddr`. -/
def claimPhysicalCell (mir : Mirror) (addr : Nat) : Option (Bool × Nat) :=
  match mir, (addr &&& 0x0FFF) / 0x0400 with
  | Mirror.horizontal, 0 => some (false, (addr &&& 0x0FFF) % 0x0400)
  | Mirror.horizontal, 1 => some (false, (addr &&& 0x0FFF) % 0x0400)
  | Mirror.horizontal, 2 => some (true, (addr &&& 0x0FFF) % 0x0400)
  | Mirror.horizontal, 3 => some (true, (addr &&& 0x0FFF) % 0x0400)
  | Mirror.vertical, 0 => some (false, (addr &&& 0x0FFF) % 0x0400)
  | Mirror.vertical, 2 => some (false, (addr &&& 0x0FFF) % 0x0400)
  | Mirror.vertical, 1 => some (true, (addr &&& 0x0FFF) % 0x0400)
  | Mirror.vertical, 3 => some (true, (addr &&& 0x0FFF) % 0x0400)
  | _, _ => none

theorem claimPhysicalCell_isSome (mir : Mirror) (addr : Nat)
    (hm : mir = .horizontal ∨ mir = .vertical) :
    ∃ side off, claimPhysicalCell mir addr = some (side, off) ∧ off < 0x0400 := by
  simp only [claimPhysicalCell]
  have hle : addr &&& 0x0FFF ≤ 0x0FFF := Nat.and_le_right
  have hq : (addr &&& 0x0FFF) / 0x0400 ≤ 3 := by omega
  have hoff : (addr &&& 0x0FFF) % 0x0400 < 0x0400 := Nat.mod_lt _ (by norm_num)
  set q := (addr &&& 0x0FFF) / 0x0400 with hqd
  rcases hm with rfl | rfl <;> interval_cases q <;> exact ⟨_, _, rfl, hoff⟩

/-- The source's mirroring function lands on exactly the physical cell that
the claim's table names. -/
theorem getMirrored_eq_claim (p : PPU) (a : Nat) (side : Bool) (off : Nat)
    (h : claimPhysicalCell p.mirror a = some (side, off)) :
    p.getMirroredVramAddr a = (if side then off + 0x0400 else off) := by
  simp only [claimPhysicalCell] at h
  simp only [PPU.getMirroredVramAddr]
  have hle : a &&& 0x0FFF ≤ 0x0FFF := Nat.and_le_right
  have hq : (a &&& 0x0FFF) / 0x0400 ≤ 3 := by omega
  set q := (a &&& 0x0FFF) / 0x0400 with hqd
  rcases hmir : p.mirror with _ | _ | _ <;> rw [hmir] at h <;> interval_cases q <;>
    simp_all

theorem and4095_idem (x : Nat) : (x &&& 0x0FFF) &&& 0x0FFF = x &&& 0x0FFF := by
  rw [and4095_eq_mod (x &&& 0x0FFF), and4095_eq_mod x]
  omega

theorem claimPhysicalCell_mask (m : Mirror) (x : Nat) :
    claimPhysicalCell m (x &&& 0x0FFF) = claimPhysicalCell m x := by
  simp only [claimPhysicalCell, and4095_idem]

/-- A PPU aimed at $3EFF, the top of the nametable window, with increment 1. -/
def ppuC6 : PPU := { ppu0 with addrReg := ⟨0x3E, 0xFF, true⟩ }

/-- Counterexample to C6: the claim says that after writing a value through
the data register, a dummy read plus a second read at the same (or a
mirrored) address returns the value.  At $3EFF (which mirrors itself) with
increment 1, the write stores $66 in VRAM, but the auto-increment puts the
address at $3F00, so the second read takes the palette path and returns the
palette byte 0 instead of the buffered $66. -/
theorem vram_mirror_roundtrip_counterexample :
    (ppuC6.writeDataReg 0x66).bind (fun p1 =>
        (PPU.readDataReg { p1 with addrReg := (⟨0x3E, 0xFF, true⟩ : AddrRegister) }).bind (fun q =>
          (PPU.readDataReg q.2).map Prod.fst)) = some 0x00
    ∧ (0x00 : Nat) ≠ 0x66 := by
  refine ⟨?_, by decide⟩
  simp only [ppuC6, ppu0]
  generalize hC : List.replicate 8192 (0 : Nat) = Cr
  generalize hL : List.replicate 2048 (0 : Nat) = L
  have hLlen : L.length = 2048 := by rw [← hL]; simp
  have hset : ∀ z : Nat, (L.set 1791 z).get? 1791 = some z := by
    intro z
    exact List.get?_set_eq_of_lt z (by omega)
  have hset2 : ∀ z : Nat, (L.set 1791 z)[1791]? = some z := by
    intro z
    rw [← List.get?_eq_getElem?]
    exact hset z
  have l0 : (62 <<< 8 ||| 255 : Nat) = 16127 := by decide
  have e1 : ((16127 : Nat) &&& 4095 &&& 4095) = 3839 := by decide
  have e2 : ((16127 : Nat) &&& 16383) = 16127 := by decide
  have e3 : ((16128 : Nat) &&& 65280) >>> 8 = 63 := by decide
  have e4 : ((16128 : Nat) &&& 255) = 0 := by decide
  have e5 : (63 <<< 8 ||| 0 : Nat) = 16128 := by decide
  have e6 : ((0 : Nat) &&& 4) = 0 := by decide
  have e7 : ((16128 : Nat) &&& 16383) = 16128 := by decide
  have e8 : ((16128 : Nat) &&& 31) = 0 := by decide
  have e9 : ((0 : Nat) &&& 63) = 0 := by decide
  have e10 : ((0 : Nat) &&& 48) = 0 := by decide
  simp only [PPU.writeDataReg, PPU.readDataReg, PPU.getMirroredVramAddr,
    AddrRegister.get, AddrRegister.inc, AddrRegister.set, AddrRegister.new, u16wrapAdd,
    CtrlRegister.getVramAddrInc, CtrlRegister.new, MaskRegister.grayscale, MaskRegister.new,
    paletteMirrorIdx, hLlen, hset, Option.some_bind, Option.map_some,
    l0, e1, e2, e3, e4, e5, e6, e7, e8, e9, e10]
  norm_num [hset, hset2, e1, e2, e3, e4, e5, e6, e7, e8, e9, e10, paletteMirrorIdx,
    MaskRegister.grayscale]

/-- C6 as amended: for every nametable address in $2000-$3EFF and every
value, after writing the value through the data register, a buffered read
pair at that address or at any address that the claim's mirroring table
sends to the same physical cell returns the written value — provided the
auto-incremented address after the first (buffer-priming) read stays below
the palette range $3F00, where reads bypass the buffer (the counterexample
shows the boundary case fails). -/
theorem vram_mirror_write_read (p : PPU) (a1 a2 v : Nat)
    (hm : p.mirror = .horizontal ∨ p.mirror = .vertical)
    (hlen : p.vram.length = 2048)
    (h1l : 0x2000 ≤ a1) (h1r : a1 ≤ 0x3EFF)
    (h2l : 0x2000 ≤ a2) (h2r : a2 ≤ 0x3EFF)
    (hrel : claimPhysicalCell p.mirror a1 = claimPhysicalCell p.mirror a2)
    (haddr : p.addrReg.get = a1)
    (hinc : a2 + p.ctrlReg.getVramAddrInc ≤ 0x3EFF) :
    ∀ r2 : AddrRegister, r2.get = a2 →
      (p.writeDataReg v).bind (fun p1 =>
        (PPU.readDataReg { p1 with addrReg := r2 }).bind (fun q =>
          (PPU.readDataReg q.2).map Prod.fst)) = some v := by
  intro r2 hr2
  obtain ⟨side, off, hcp1, hoffb⟩ := claimPhysicalCell_isSome p.mirror a1 hm
  have hcp2 : claimPhysicalCell p.mirror a2 = some (side, off) := by rw [← hrel]; exact hcp1
  set idx := (if side then off + 0x0400 else off) with hidxd
  have hidxb : idx < 2048 := by rw [hidxd]; split <;> omega
  unfold PPU.writeDataReg
  rw [haddr]
  rw [if_neg (by omega), if_pos (by omega)]
  dsimp only
  have hg1 : PPU.getMirroredVramAddr
      { p with addrReg := p.addrReg.inc p.ctrlReg.getVramAddrInc } (a1 &&& 0x0FFF) = idx := by
    apply getMirrored_eq_claim
    show claimPhysicalCell p.mirror (a1 &&& 0x0FFF) = _
    rw [claimPhysicalCell_mask]
    exact hcp1
  rw [hg1]
  rw [if_pos (by simpa [hlen] using hidxb)]
  rw [Option.some_bind]
  unfold PPU.readDataReg
  rw [hr2]
  rw [show a2 &&& 0x3FFF = a2 from by rw [and16383_eq_mod]; omega]
  rw [if_neg (by omega), if_pos (by omega)]
  dsimp only
  have hg2 : ∀ pp : PPU, pp.mirror = p.mirror → pp.getMirroredVramAddr (a2 &&& 0x0FFF) = idx := by
    intro pp hpp
    apply getMirrored_eq_claim
    rw [hpp]
    show claimPhysicalCell p.mirror (a2 &&& 0x0FFF) = _
    rw [claimPhysicalCell_mask]
    exact hcp2
  simp only [hg2]
  rw [show (p.vram.set idx v).get? idx = some v from
    List.get?_set_eq_of_lt v (by rw [hlen]; omega)]
  simp only [Option.some_bind]
  have hget2 : (r2.inc p.ctrlReg.getVramAddrInc).get = a2 + p.ctrlReg.getVramAddrInc := by
    rw [AddrRegister.get_inc, hr2]
    exact Nat.mod_eq_of_lt (by omega)
  rw [hget2]
  rw [show (a2 + p.ctrlReg.getVramAddrInc) &&& 0x3FFF = a2 + p.ctrlReg.getVramAddrInc from by
    rw [and16383_eq_mod]; omega]
  rw [if_neg (by omega), if_pos (by omega)]
  obtain ⟨side2, off2, hcp3, hoffb2⟩ :=
    claimPhysicalCell_isSome p.mirror (a2 + p.ctrlReg.getVramAddrInc) hm
  have hg3 : ∀ pp : PPU, pp.mirror = p.mirror →
      pp.getMirroredVramAddr ((a2 + p.ctrlReg.getVramAddrInc) &&& 0x0FFF)
        = (if side2 then off2 + 0x0400 else off2) := by
    intro pp hpp
    apply getMirrored_eq_claim
    rw [hpp]
    show claimPhysicalCell p.mirror _ = _
    rw [claimPhysicalCell_mask]
    exact hcp3
  simp only [hg3]
  have hidxb2 : (if side2 then off2 + 0x0400 else off2) < 2048 := by split <;> omega
  obtain ⟨y, hy⟩ : ∃ z, (p.vram.set idx v).get? (if side2 then off2 + 0x0400 else off2) = some z :=
    ⟨_, List.get?_eq_get (show (if side2 then off2 + 0x0400 else off2) < (p.vram.set idx v).length
      from by simp [hlen]; omega)⟩
  rw [hy]
  rfl

/-- Witness for the amended C6: with horizontal mirroring, $66 written at
$2405 is read back through the mirror at $2005. -/
theorem vram_mirror_write_read_witness :
    claimPhysicalCell ({ ppu0 with addrReg := (⟨0x24, 0x05, true⟩ : AddrRegister) } : PPU).mirror 0x2405
      = claimPhysicalCell ({ ppu0 with addrReg := (⟨0x24, 0x05, true⟩ : AddrRegister) } : PPU).mirror 0x2005
    ∧ ((({ ppu0 with addrReg := (⟨0x24, 0x05, true⟩ : AddrRegister) } : PPU).writeDataReg 0x66).bind
        (fun p1 => (PPU.readDataReg { p1 with addrReg := (⟨0x20, 0x05, true⟩ : AddrRegister) }).bind
          (fun q => (PPU.readDataReg q.2).map Prod.fst))) = some 0x66 :=
  ⟨by decide,
   vram_mirror_write_read { ppu0 with addrReg := ⟨0x24, 0x05, true⟩ } 0x2405 0x2005 0x66
     (Or.inl rfl)
     (by show (List.replicate 2048 (0 : Nat)).length = 2048; simp)
     (by omega) (by omega) (by omega) (by omega)
     (by decide) rfl (by decide) ⟨0x20, 0x05, true⟩ rfl⟩


/-! ### Claim C2 -/

/-- The DMA engine is live throughout a run prefix: after each of the first
`n` ticks (exclusive of the `n`-th), `dma_transfer` is still set. -/
def Bus.dmaLive (b : Bus) (n : Nat) : Prop :=
  ∀ m, m < n → ∃ bm, b.after m = some bm ∧ bm.dmaTransfer = true

theorem Bus.run_zero (b : Bus) : b.run 0 = some (b, 0, true) := rfl

theorem Bus.after_zero (b : Bus) : b.after 0 = some b := rfl

theorem Bus.run_succ (b : Bus) (n : Nat) :
    b.run (n + 1) =
      match b.systemTick with
      | none => none
      | some (b1, exec) =>
        match b1.run n with
        | none => none
        | some (bf, slots, noExec) =>
          some (bf, (if b.totalSystemCycles % 3 = 0 then 1 else 0) + slots, noExec && !exec) := rfl

theorem Bus.after_succ (b : Bus) (n : Nat) :
    b.after (n + 1) =
      match b.systemTick with
      | none => none
      | some (b1, _) => b1.after n := rfl

theorem Bus.after_add (m n : Nat) : ∀ b : Bus,
    b.after (m + n) = (b.after m).bind (fun x => x.after n) := by
  induction m with
  | zero => intro b; rw [Nat.zero_add]; rfl
  | succ m ih =>
    intro b
    rw [Nat.add_right_comm, Bus.after_succ, Bus.after_succ]
    cases h : b.systemTick with
    | none => rfl
    | some r => exact ih r.1

theorem after_step {b b1 bf : Bus} {e : Bool} {n : Nat}
    (htick : b.systemTick = some (b1, e)) (h : b1.after n = some bf) :
    b.after (n + 1) = some bf := by
  rw [Bus.after_succ, htick]
  exact h

theorem run_step_slot {b b1 bf : Bus} {n s : Nat} {e : Bool}
    (h3 : b.totalSystemCycles % 3 = 0)
    (htick : b.systemTick = some (b1, false))
    (hrun : b1.run n = some (bf, s, e)) :
    b.run (n + 1) = some (bf, 1 + s, e) := by
  rw [Bus.run_succ]
  simp only [htick, hrun]
  simp [h3]

theorem run_step_skip {b b1 bf : Bus} {n s : Nat} {e : Bool}
    (h3 : ¬ b.totalSystemCycles % 3 = 0)
    (htick : b.systemTick = some (b1, false))
    (hrun : b1.run n = some (bf, s, e)) :
    b.run (n + 1) = some (bf, s, e) := by
  rw [Bus.run_succ]
  simp only [htick, hrun]
  simp [h3]

theorem Bus.run_append (m : Nat) : ∀ (n : Nat) (b b1 bf : Bus) (s1 s2 : Nat) (e1 e2 : Bool),
    b.run m = some (b1, s1, e1) → b1.run n = some (bf, s2, e2) →
    b.run (m + n) = some (bf, s1 + s2, e1 && e2) := by
  induction m with
  | zero =>
    intro n b b1 bf s1 s2 e1 e2 h1 h2
    rw [Bus.run_zero] at h1
    simp only [Option.some.injEq, Prod.mk.injEq] at h1
    obtain ⟨rfl, rfl, rfl⟩ := h1
    rw [Nat.zero_add]
    simpa using h2
  | succ m ih =>
    intro n b b1 bf s1 s2 e1 e2 h1 h2
    rw [Nat.add_right_comm]
    rw [Bus.run_succ] at h1 ⊢
    cases htick : b.systemTick with
    | none => simp [htick] at h1
    | some r =>
      obtain ⟨bx, ex⟩ := r
      simp only [htick] at h1 ⊢
      cases hrun : bx.run m with
      | none => simp [hrun] at h1
      | some r2 =>
        obtain ⟨bm, sm, em⟩ := r2
        simp only [hrun] at h1
        simp only [Option.some.injEq, Prod.mk.injEq] at h1
        obtain ⟨rfl, hs, he⟩ := h1
        rw [ih n bx bm bf sm s2 em e2 hrun h2]
        simp only [Option.some.injEq, Prod.mk.injEq]
        refine ⟨trivial, by omega, ?_⟩
        rw [← he]
        cases em <;> cases ex <;> cases e2 <;> rfl

theorem Bus.run_after (n : Nat) : ∀ (b bf : Bus) (s : Nat) (e : Bool),
    b.run n = some (bf, s, e) → b.after n = some bf := by
  induction n with
  | zero =>
    intro b bf s e h
    rw [Bus.run_zero] at h
    simp only [Option.some.injEq, Prod.mk.injEq] at h
    rw [Bus.after_zero, h.1]
  | succ n ih =>
    intro b bf s e h
    rw [Bus.run_succ] at h
    rw [Bus.after_succ]
    cases htick : b.systemTick with
    | none => simp [htick] at h
    | some r =>
      obtain ⟨bx, ex⟩ := r
      simp only [htick] at h ⊢
      cases hrun : bx.run n with
      | none => simp [hrun] at h
      | some r2 =>
        obtain ⟨bm, sm, em⟩ := r2
        simp only [hrun] at h
        simp only [Option.some.injEq, Prod.mk.injEq] at h
        exact h.1 ▸ ih bx bm sm em hrun

theorem dmaLive_zero (b : Bus) : b.dmaLive 0 := by
  intro m hm
  exact absurd hm (Nat.not_lt_zero m)

theorem dmaLive_succ {b b1 : Bus} {e : Bool} {n : Nat}
    (htick : b.systemTick = some (b1, e)) (ht : b.dmaTransfer = true)
    (hl : b1.dmaLive n) : b.dmaLive (n + 1) := by
  intro m hm
  cases m with
  | zero => exact ⟨b, rfl, ht⟩
  | succ m =>
    rw [Bus.after_succ, htick]
    exact hl m (by omega)

theorem dmaLive_append {b b1 : Bus} {m n : Nat}
    (h1 : b.dmaLive m) (ha : b.after m = some b1) (h2 : b1.dmaLive n) :
    b.dmaLive (m + n) := by
  intro k hk
  by_cases hkm : k < m
  · exact h1 k hkm
  · obtain ⟨r, rfl⟩ : ∃ r, k = m + r := ⟨k - m, by omega⟩
    rw [Bus.after_add, ha]
    exact h2 r (by omega)


theorem tick_skip (b : Bus) (h3 : ¬ b.totalSystemCycles % 3 = 0)
    (hU : b.totalSystemCycles + 1 < U32MOD) :
    b.systemTick = some ({ b with totalSystemCycles := b.totalSystemCycles + 1 }, false) := by
  simp only [Bus.systemTick]
  rw [if_neg h3, Nat.mod_eq_of_lt hU]

theorem tick_dummy_odd (b : Bus) (h3 : b.totalSystemCycles % 3 = 0)
    (htr : b.dmaTransfer = true) (hd : b.dmaDummy = true)
    (h2 : b.totalSystemCycles % 2 = 1)
    (hU : b.totalSystemCycles + 1 < U32MOD) :
    b.systemTick = some ({ b with dmaDummy := false,
                                  totalSystemCycles := b.totalSystemCycles + 1 }, false) := by
  simp only [Bus.systemTick]
  rw [if_pos h3, if_pos htr, if_pos hd, if_pos h2]
  dsimp only
  rw [Nat.mod_eq_of_lt hU]

theorem tick_dummy_even (b : Bus) (h3 : b.totalSystemCycles % 3 = 0)
    (htr : b.dmaTransfer = true) (hd : b.dmaDummy = true)
    (h2 : b.totalSystemCycles % 2 = 0)
    (hU : b.totalSystemCycles + 1 < U32MOD) :
    b.systemTick = some ({ b with totalSystemCycles := b.totalSystemCycles + 1 }, false) := by
  simp only [Bus.systemTick]
  rw [if_pos h3, if_pos htr, if_pos hd, if_neg (show ¬ b.totalSystemCycles % 2 = 1 by omega)]
  rw [Nat.mod_eq_of_lt hU]


theorem tick_write_mid (b : Bus) (h3 : b.totalSystemCycles % 3 = 0)
    (htr : b.dmaTransfer = true) (hd : b.dmaDummy = false)
    (h2 : b.totalSystemCycles % 2 = 1)
    (ha : b.dmaAddr + 1 ≤ 255)
    (hU : b.totalSystemCycles + 1 < U32MOD) :
    b.systemTick = some ({ b with
      ppu := { b.ppu with
        oamData := fun i => if i = b.dmaAddr then b.dmaData else b.ppu.oamData i },
      dmaAddr := b.dmaAddr + 1,
      totalSystemCycles := b.totalSystemCycles + 1 }, false) := by
  simp only [Bus.systemTick]
  rw [if_pos h3, if_pos htr, if_neg (show ¬ b.dmaDummy = true by simp [hd]),
      if_neg (show ¬ b.totalSystemCycles % 2 = 0 by omega)]
  have hw : u8wrapAdd b.dmaAddr 1 = b.dmaAddr + 1 := by
    simp only [u8wrapAdd]
    omega
  rw [hw, if_neg (show ¬ b.dmaAddr + 1 = 0 by omega)]
  dsimp only
  rw [Nat.mod_eq_of_lt hU]

theorem tick_write_last (b : Bus) (h3 : b.totalSystemCycles % 3 = 0)
    (htr : b.dmaTransfer = true) (hd : b.dmaDummy = false)
    (h2 : b.totalSystemCycles % 2 = 1)
    (ha : b.dmaAddr = 255)
    (hU : b.totalSystemCycles + 1 < U32MOD) :
    b.systemTick = some ({ b with
      ppu := { b.ppu with
        oamData := fun i => if i = b.dmaAddr then b.dmaData else b.ppu.oamData i },
      dmaAddr := 0, dmaDummy := true, dmaTransfer := false,
      totalSystemCycles := b.totalSystemCycles + 1 }, false) := by
  simp only [Bus.systemTick]
  rw [if_pos h3, if_pos htr, if_neg (show ¬ b.dmaDummy = true by simp [hd]),
      if_neg (show ¬ b.totalSystemCycles % 2 = 0 by omega)]
  have hw : u8wrapAdd b.dmaAddr 1 = 0 := by
    simp only [u8wrapAdd, ha]
  rw [hw, if_pos rfl]
  dsimp only
  rw [Nat.mod_eq_of_lt hU]

theorem dma_triple {b b1 bf : Bus} {n s : Nat} {e : Bool}
    (htick : b.systemTick = some (b1, false))
    (ht1 : b1.totalSystemCycles = b.totalSystemCycles + 1)
    (h3 : b.totalSystemCycles % 3 = 0)
    (htr : b.dmaTransfer = true) (htr1 : b1.dmaTransfer = true)
    (hU : b.totalSystemCycles + 3 < U32MOD)
    (hrun : ({ b1 with totalSystemCycles := b1.totalSystemCycles + 2 }).run n = some (bf, s, e))
    (hafter : ({ b1 with totalSystemCycles := b1.totalSystemCycles + 2 }).after n = some bf)
    (hlive : ({ b1 with totalSystemCycles := b1.totalSystemCycles + 2 }).dmaLive n) :
    b.run (n + 3) = some (bf, 1 + s, e)
    ∧ b.after (n + 3) = some bf
    ∧ b.dmaLive (n + 3) := by
  have e2 : b1.systemTick = some ({ b1 with totalSystemCycles := b1.totalSystemCycles + 1 }, false) :=
    tick_skip b1 (by rw [ht1]; omega) (by rw [ht1]; omega)
  have e3 : ({ b1 with totalSystemCycles := b1.totalSystemCycles + 1 } : Bus).systemTick
      = some ({ b1 with totalSystemCycles := b1.totalSystemCycles + 2 }, false) := by
    have h := tick_skip ({ b1 with totalSystemCycles := b1.totalSystemCycles + 1 } : Bus)
      (show ¬ (b1.totalSystemCycles + 1) % 3 = 0 by rw [ht1]; omega)
      (show b1.totalSystemCycles + 1 + 1 < U32MOD by rw [ht1]; omega)
    exact h
  refine ⟨?_, ?_, ?_⟩
  · exact run_step_slot h3 htick
      (run_step_skip (show ¬ b1.totalSystemCycles % 3 = 0 by rw [ht1]; omega) e2
        (run_step_skip (show ¬ (b1.totalSystemCycles + 1) % 3 = 0 by rw [ht1]; omega) e3 hrun))
  · exact after_step htick (after_step e2 (after_step e3 hafter))
  · exact dmaLive_succ htick htr (dmaLive_succ e2 htr1 (dmaLive_succ e3 htr1 hlive))

theorem dma_single {b b1 bf : Bus} {n s : Nat} {e : Bool}
    (htick : b.systemTick = some (b1, false))
    (h3 : b.totalSystemCycles % 3 = 0)
    (htr : b.dmaTransfer = true)
    (hrun : b1.run n = some (bf, s, e))
    (hafter : b1.after n = some bf)
    (hlive : b1.dmaLive n) :
    b.run (n + 1) = some (bf, 1 + s, e)
    ∧ b.after (n + 1) = some bf
    ∧ b.dmaLive (n + 1) :=
  ⟨run_step_slot h3 htick hrun, after_step htick hafter, dmaLive_succ htick htr hlive⟩


theorem dma_addr_le16 (page a : Nat) (hp : page ≤ 255) (ha : a ≤ 255) :
    (page <<< 8) ||| a ≤ 0xFFFF := by
  have h := Nat.append_lt (show a < 2 ^ 8 by omega) (show page < 2 ^ 8 by omega)
  have h2 : (2 : Nat) ^ (8 + 8) = 65536 := by norm_num
  omega

theorem readDataReg_total (p : PPU)
    (hv : p.vram.length = 2048) (hc : p.chrRom.length = 8192)
    (hm : p.mirror = Mirror.horizontal ∨ p.mirror = Mirror.vertical) :
    ∃ v p1, p.readDataReg = some (v, p1)
      ∧ p1.vram = p.vram ∧ p1.chrRom = p.chrRom ∧ p1.mirror = p.mirror := by
  simp only [PPU.readDataReg]
  by_cases hA : p.addrReg.get &&& 0x3FFF ≤ 0x1FFF
  · rw [if_pos hA]
    obtain ⟨v, hv'⟩ : ∃ v, p.chrRom.get? (p.addrReg.get &&& 0x3FFF) = some v :=
      ⟨_, List.get?_eq_get (show p.addrReg.get &&& 0x3FFF < p.chrRom.length from by
        rw [hc]; omega)⟩
    rw [hv']
    exact ⟨_, _, rfl, rfl, rfl, rfl⟩
  · by_cases hB : p.addrReg.get &&& 0x3FFF ≤ 0x3EFF
    · rw [if_neg hA, if_pos hB]
      obtain ⟨side, off, hcell, hoffb⟩ :=
        claimPhysicalCell_isSome p.mirror ((p.addrReg.get &&& 0x3FFF) &&& 0x0FFF) hm
      have hmir : ({ p with addrReg := p.addrReg.inc p.ctrlReg.getVramAddrInc } : PPU).getMirroredVramAddr
          ((p.addrReg.get &&& 0x3FFF) &&& 0x0FFF) = (if side then off + 0x0400 else off) := by
        apply getMirrored_eq_claim
        exact hcell
      obtain ⟨v, hv'⟩ : ∃ v, p.vram.get?
          (({ p with addrReg := p.addrReg.inc p.ctrlReg.getVramAddrInc } : PPU).getMirroredVramAddr
            ((p.addrReg.get &&& 0x3FFF) &&& 0x0FFF)) = some v :=
        ⟨_, List.get?_eq_get (show _ < p.vram.length from by
          rw [hv, hmir]; split <;> omega)⟩
      rw [hv']
      exact ⟨_, _, rfl, rfl, rfl, rfl⟩
    · rw [if_neg hA, if_neg hB]
      split
      · exact ⟨_, _, rfl, rfl, rfl, rfl⟩
      · exact ⟨_, _, rfl, rfl, rfl, rfl⟩

theorem ppuCpuRead_total (p : PPU) (a : Nat)
    (h1 : 0x2000 ≤ a) (h2 : a ≤ 0x3FFF)
    (hv : p.vram.length = 2048) (hc : p.chrRom.length = 8192)
    (hm : p.mirror = Mirror.horizontal ∨ p.mirror = Mirror.vertical) :
    ∃ v p1, p.cpuRead a = some (v, p1)
      ∧ p1.vram = p.vram ∧ p1.chrRom = p.chrRom ∧ p1.mirror = p.mirror := by
  have h8 : a &&& 0x0007 ≤ 7 := Nat.and_le_right
  simp only [PPU.cpuRead]
  rw [if_pos (⟨h1, h2⟩ : 0x2000 ≤ a ∧ a ≤ 0x3FFF)]
  rcases (show a &&& 0x0007 = 0 ∨ a &&& 0x0007 = 1 ∨ a &&& 0x0007 = 2 ∨ a &&& 0x0007 = 3
      ∨ a &&& 0x0007 = 4 ∨ a &&& 0x0007 = 5 ∨ a &&& 0x0007 = 6 ∨ a &&& 0x0007 = 7 from by omega)
    with h|h|h|h|h|h|h|h <;> rw [h]
  case inl => exact ⟨_, _, rfl, rfl, rfl, rfl⟩
  all_goals first
    | exact ⟨_, _, rfl, rfl, rfl, rfl⟩
    | exact readDataReg_total p hv hc hm

theorem busCpuRead_total (b : Bus) (a : Nat) (ha : a ≤ 0xFFFF)
    (hv : b.ppu.vram.length = 2048) (hc : b.ppu.chrRom.length = 8192)
    (hm : b.ppu.mirror = Mirror.horizontal ∨ b.ppu.mirror = Mirror.vertical)
    (hprg : (if b.cart.mapper.numPrgBanks > 1 then 0x7FFF else 0x3FFF) < b.cart.prgRom.length) :
    ∃ v b1, b.cpuRead a = some (v, b1)
      ∧ b1.ppu.vram = b.ppu.vram ∧ b1.ppu.chrRom = b.ppu.chrRom
      ∧ b1.ppu.mirror = b.ppu.mirror ∧ b1.cart = b.cart
      ∧ b1.dmaTransfer = b.dmaTransfer ∧ b1.dmaDummy = b.dmaDummy
      ∧ b1.dmaAddr = b.dmaAddr ∧ b1.dmaPage = b.dmaPage
      ∧ b1.totalSystemCycles = b.totalSystemCycles := by
  simp only [Bus.cpuRead]
  by_cases h8 : 0x8000 ≤ a
  · have hmap : b.cart.mapper.cpuReadMapping a
        = some (a &&& (if b.cart.mapper.numPrgBanks > 1 then 0x7FFF else 0x3FFF)) := by
      simp only [Mapper0.cpuReadMapping]
      rw [if_pos ⟨h8, ha⟩]
    have hidx : (a &&& (if b.cart.mapper.numPrgBanks > 1 then 0x7FFF else 0x3FFF))
        < b.cart.prgRom.length := by
      have hle : (a &&& (if b.cart.mapper.numPrgBanks > 1 then 0x7FFF else 0x3FFF))
          ≤ (if b.cart.mapper.numPrgBanks > 1 then 0x7FFF else 0x3FFF) := Nat.and_le_right
      omega
    obtain ⟨v, hv'⟩ : ∃ v, b.cart.prgRom.get?
        (a &&& (if b.cart.mapper.numPrgBanks > 1 then 0x7FFF else 0x3FFF)) = some v :=
      ⟨_, List.get?_eq_get hidx⟩
    have hcart : b.cart.cpuRead a = some (some v) := by
      simp only [Cartridge.cpuRead, hmap, hv']
    simp only [hcart]
    exact ⟨v, b, rfl, rfl, rfl, rfl, rfl, rfl, rfl, rfl, rfl, rfl⟩
  · have hcart : b.cart.cpuRead a = some none := by
      simp only [Cartridge.cpuRead, Mapper0.cpuReadMapping]
      rw [if_neg (by omega)]
    simp only [hcart]
    by_cases h1 : a ≤ 0x1FFF
    · rw [if_pos h1]
      exact ⟨_, b, rfl, rfl, rfl, rfl, rfl, rfl, rfl, rfl, rfl, rfl⟩
    · rw [if_neg h1]
      by_cases h2 : a ≤ 0x3FFF
      · rw [if_pos h2]
        obtain ⟨v, p1, hppu, hpv, hpc, hpm⟩ := ppuCpuRead_total b.ppu a (by omega) h2 hv hc hm
        simp only [hppu]
        exact ⟨v, { b with ppu := p1 }, rfl, hpv, hpc, hpm, rfl, rfl, rfl, rfl, rfl, rfl⟩
      · rw [if_neg h2]
        by_cases h3 : 0x4000 ≤ a ∧ a ≤ 0x4015
        · rw [if_pos h3]
          exact ⟨0, b, rfl, rfl, rfl, rfl, rfl, rfl, rfl, rfl, rfl, rfl⟩
        · rw [if_neg h3]
          by_cases h4 : a = 0x4016
          · rw [if_pos h4]
            cases hjp : b.joypad1.read with
            | mk v j =>
              simp only [hjp]
              exact ⟨v, { b with joypad1 := j }, rfl, rfl, rfl, rfl, rfl, rfl, rfl, rfl, rfl, rfl⟩
          · rw [if_neg h4]
            by_cases h5 : a = 0x4017
            · rw [if_pos h5]
              cases hjp : b.joypad2.read with
              | mk v j =>
                simp only [hjp]
                exact ⟨v, { b with joypad2 := j }, rfl, rfl, rfl, rfl, rfl, rfl, rfl, rfl, rfl, rfl⟩
            · rw [if_neg h5]
              exact ⟨0, b, rfl, rfl, rfl, rfl, rfl, rfl, rfl, rfl, rfl, rfl⟩

theorem cpuRead_shift (r : Bus) (d : Bool) (y a : Nat) :
    Bus.cpuRead { r with dmaDummy := d, totalSystemCycles := y } a
      = (r.cpuRead a).map
          (fun q => (q.1, { q.2 with dmaDummy := d, totalSystemCycles := y })) := by
  simp only [Bus.cpuRead]
  cases hc : r.cart.cpuRead a with
  | none => rfl
  | some o =>
    cases o with
    | some v => rfl
    | none =>
      split_ifs
      · rfl
      · cases hp : r.ppu.cpuRead a with
        | none => rfl
        | some q => obtain ⟨v, p⟩ := q; rfl
      · rfl
      · cases hjp : r.joypad1.read with
        | mk v j => simp only [hjp]; rfl
      · cases hjp : r.joypad2.read with
        | mk v j => simp only [hjp]; rfl
      · rfl

/-- The copy loop the claim describes, over the source's `Bus::cpu_read`:
starting from the current DMA low address, read the byte at
`(dma_page << 8) | dma_addr` through the CPU bus (device reads thread
their side effects through the bus state), store it into OAM at that low
address, increment the low address with 8-bit wrap, and repeat `k` times.
`dmaCopy 256` is the whole page copy of the claim, with the cycle-level
timing machinery absent. -/
def dmaCopy : Nat → Bus → Option Bus
  | 0, b => some b
  | k + 1, b =>
    match b.cpuRead ((b.dmaPage <<< 8) ||| b.dmaAddr) with
    | none => none
    | some (v, b1) =>
      dmaCopy k { b1 with
        dmaData := v,
        ppu := { b1.ppu with oamData := fun x => if x = b.dmaAddr then v else b1.ppu.oamData x },
        dmaAddr := u8wrapAdd b.dmaAddr 1 }

theorem dmaCopy_shift (k : Nat) : ∀ (r : Bus) (d : Bool) (y : Nat),
    dmaCopy k { r with dmaDummy := d, totalSystemCycles := y }
      = (dmaCopy k r).map (fun z => { z with dmaDummy := d, totalSystemCycles := y }) := by
  induction k with
  | zero => intro r d y; rfl
  | succ k ih =>
    intro r d y
    simp only [dmaCopy]
    rw [cpuRead_shift]
    cases hc : r.cpuRead ((r.dmaPage <<< 8) ||| r.dmaAddr) with
    | none => rfl
    | some q =>
      obtain ⟨v, b1⟩ := q
      exact ih ({ b1 with
        dmaData := v,
        ppu := { b1.ppu with oamData := fun x => if x = r.dmaAddr then v else b1.ppu.oamData x },
        dmaAddr := u8wrapAdd r.dmaAddr 1 } : Bus) d y

theorem tick_read_raw (b b1 : Bus) (v : Nat)
    (h3 : b.totalSystemCycles % 3 = 0)
    (htr : b.dmaTransfer = true) (hd : b.dmaDummy = false)
    (h2 : b.totalSystemCycles % 2 = 0)
    (hread : b.cpuRead ((b.dmaPage <<< 8) ||| b.dmaAddr) = some (v, b1)) :
    b.systemTick = some ({ b1 with
      dmaData := v,
      totalSystemCycles := (b1.totalSystemCycles + 1) % U32MOD }, false) := by
  simp only [Bus.systemTick]
  rw [if_pos h3, if_pos htr, if_neg (show ¬ b.dmaDummy = true by simp [hd]), if_pos h2]
  simp only [hread]

theorem tick_dummy_odd_wrap (b : Bus)
    (hT : b.totalSystemCycles = U32MOD - 1)
    (htr : b.dmaTransfer = true) (hd : b.dmaDummy = true) :
    b.systemTick = some ({ b with dmaDummy := false, totalSystemCycles := 0 }, false) := by
  have h3 : b.totalSystemCycles % 3 = 0 := by rw [hT]; decide
  have h2 : b.totalSystemCycles % 2 = 1 := by rw [hT]; decide
  simp only [Bus.systemTick]
  rw [if_pos h3, if_pos htr, if_pos hd, if_pos h2]
  dsimp only
  rw [hT, show (U32MOD - 1 + 1) % U32MOD = 0 from by decide]

theorem tick_write_mid_wrap (b : Bus)
    (hT : b.totalSystemCycles = U32MOD - 1)
    (htr : b.dmaTransfer = true) (hd : b.dmaDummy = false)
    (ha : b.dmaAddr + 1 ≤ 255) :
    b.systemTick = some ({ b with
      ppu := { b.ppu with
        oamData := fun i => if i = b.dmaAddr then b.dmaData else b.ppu.oamData i },
      dmaAddr := b.dmaAddr + 1,
      totalSystemCycles := 0 }, false) := by
  have h3 : b.totalSystemCycles % 3 = 0 := by rw [hT]; decide
  have h2 : ¬ b.totalSystemCycles % 2 = 0 := by rw [hT]; decide
  simp only [Bus.systemTick]
  rw [if_pos h3, if_pos htr, if_neg (show ¬ b.dmaDummy = true by simp [hd]), if_neg h2]
  have hw : u8wrapAdd b.dmaAddr 1 = b.dmaAddr + 1 := by
    simp only [u8wrapAdd]
    omega
  rw [hw, if_neg (show ¬ b.dmaAddr + 1 = 0 by omega)]
  rw [hT, show (U32MOD - 1 + 1) % U32MOD = 0 from by decide]

theorem tick_write_last_wrap (b : Bus)
    (hT : b.totalSystemCycles = U32MOD - 1)
    (htr : b.dmaTransfer = true) (hd : b.dmaDummy = false)
    (ha : b.dmaAddr = 255) :
    b.systemTick = some ({ b with
      ppu := { b.ppu with
        oamData := fun i => if i = b.dmaAddr then b.dmaData else b.ppu.oamData i },
      dmaAddr := 0, dmaDummy := true, dmaTransfer := false,
      totalSystemCycles := 0 }, false) := by
  have h3 : b.totalSystemCycles % 3 = 0 := by rw [hT]; decide
  have h2 : ¬ b.totalSystemCycles % 2 = 0 := by rw [hT]; decide
  simp only [Bus.systemTick]
  rw [if_pos h3, if_pos htr, if_neg (show ¬ b.dmaDummy = true by simp [hd]), if_neg h2]
  have hw : u8wrapAdd b.dmaAddr 1 = 0 := by
    simp only [u8wrapAdd, ha]
  rw [hw, if_pos rfl]
  rw [hT, show (U32MOD - 1 + 1) % U32MOD = 0 from by decide]

theorem map_eq_some_bus {o : Option Bus} {f : Bus → Bus} {z : Bus}
    (h : o.map f = some z) : ∃ x, o = some x ∧ f x = z := by
  cases o with
  | none => simp at h
  | some x => exact ⟨x, rfl, by simpa using h⟩

theorem dmaCopy_step (k : Nat) (b b1 : Bus) (v : Nat)
    (hread : b.cpuRead ((b.dmaPage <<< 8) ||| b.dmaAddr) = some (v, b1)) :
    dmaCopy (k + 1) b = dmaCopy k { b1 with
      dmaData := v,
      ppu := { b1.ppu with oamData := fun x => if x = b.dmaAddr then v else b1.ppu.oamData x },
      dmaAddr := u8wrapAdd b.dmaAddr 1 } := by
  simp only [dmaCopy, hread]

theorem dma_transfer_phase (j : Nat) : j ≤ 255 → ∀ b : Bus,
    b.dmaTransfer = true → b.dmaDummy = false →
    b.dmaAddr = 255 - j → b.dmaPage ≤ 255 →
    b.ppu.vram.length = 2048 → b.ppu.chrRom.length = 8192 →
    (b.ppu.mirror = Mirror.horizontal ∨ b.ppu.mirror = Mirror.vertical) →
    (if b.cart.mapper.numPrgBanks > 1 then 0x7FFF else 0x3FFF) < b.cart.prgRom.length →
    b.totalSystemCycles % 6 = 0 → b.totalSystemCycles < U32MOD →
    ∃ n bf bx t2, b.run n = some (bf, 2 * j + 2, true)
      ∧ b.after n = some bf
      ∧ b.dmaLive n
      ∧ bf.dmaAddr = 0
      ∧ dmaCopy (j + 1) b = some bx
      ∧ bf = { bx with dmaTransfer := false, dmaDummy := true,
                       totalSystemCycles := t2 } := by
  induction j with
  | zero =>
    intro hj b htr hd ha hp hv hc hm hprg h6 hlt
    have hU32 : U32MOD = 4294967296 := rfl
    have ha255 : b.dmaAddr = 255 := by omega
    have haddr16 : (b.dmaPage <<< 8) ||| b.dmaAddr ≤ 0xFFFF :=
      dma_addr_le16 b.dmaPage b.dmaAddr hp (by omega)
    obtain ⟨v, b1, hread, pv, pc, pm, pcart, ptr, pdu, pad, ppg, pt⟩ :=
      busCpuRead_total b ((b.dmaPage <<< 8) ||| b.dmaAddr) haddr16 hv hc hm hprg
    have htr1 : b1.dmaTransfer = true := by rw [ptr]; exact htr
    have hd1 : b1.dmaDummy = false := by rw [pdu]; exact hd
    have e1 := tick_read_raw b b1 v (by omega) htr hd (by omega) hread
    rw [pt, Nat.mod_eq_of_lt (show b.totalSystemCycles + 1 < U32MOD by omega)] at e1
    have hw8 : u8wrapAdd b.dmaAddr 1 = 0 := by
      simp only [u8wrapAdd]
      omega
    have hcopy : dmaCopy (0 + 1) b = some ({ b1 with
        dmaData := v,
        ppu := { b1.ppu with oamData := fun x => if x = b.dmaAddr then v else b1.ppu.oamData x },
        dmaAddr := 0 } : Bus) := by
      rw [dmaCopy_step 0 b b1 v hread, hw8]
      rfl
    rw [← pad] at hcopy
    by_cases hwx : b.totalSystemCycles = U32MOD - 4
    · have e4 := tick_write_last_wrap
        ({ b1 with dmaData := v, totalSystemCycles := b.totalSystemCycles + 3 } : Bus)
        (show b.totalSystemCycles + 3 = U32MOD - 1 by omega)
        htr1 hd1
        (show b1.dmaAddr = 255 by omega)
      have e2 := tick_skip ({ b1 with dmaData := v, totalSystemCycles := b.totalSystemCycles + 1 } : Bus)
        (show ¬ (b.totalSystemCycles + 1) % 3 = 0 by omega)
        (show b.totalSystemCycles + 1 + 1 < U32MOD by omega)
      have e3 := tick_skip ({ b1 with dmaData := v, totalSystemCycles := b.totalSystemCycles + 2 } : Bus)
        (show ¬ (b.totalSystemCycles + 2) % 3 = 0 by omega)
        (show b.totalSystemCycles + 2 + 1 < U32MOD by omega)
      have rr1 := run_step_slot (show (b.totalSystemCycles + 3) % 3 = 0 by omega) e4 (Bus.run_zero _)
      have rr2 := run_step_skip (show ¬ (b.totalSystemCycles + 2) % 3 = 0 by omega) e3 rr1
      have rr3 := run_step_skip (show ¬ (b.totalSystemCycles + 1) % 3 = 0 by omega) e2 rr2
      have rr4 := run_step_slot (by omega) e1 rr3
      have aa1 := after_step e4 (Bus.after_zero _)
      have aa2 := after_step e3 aa1
      have aa3 := after_step e2 aa2
      have aa4 := after_step e1 aa3
      have ll1 := dmaLive_succ e4 htr1 (dmaLive_zero _)
      have ll2 := dmaLive_succ e3 htr1 ll1
      have ll3 := dmaLive_succ e2 htr1 ll2
      have ll4 := dmaLive_succ e1 htr ll3
      exact ⟨4, _, _, 0, rr4, aa4, ll4, rfl, hcopy, rfl⟩
    · have e4 := tick_write_last
        ({ b1 with dmaData := v, totalSystemCycles := b.totalSystemCycles + 3 } : Bus)
        (show (b.totalSystemCycles + 3) % 3 = 0 by omega)
        htr1 hd1
        (show (b.totalSystemCycles + 3) % 2 = 1 by omega)
        (show b1.dmaAddr = 255 by omega)
        (show b.totalSystemCycles + 3 + 1 < U32MOD by omega)
      obtain ⟨r1, a1, l1⟩ := dma_single e4
        (show (b.totalSystemCycles + 3) % 3 = 0 by omega)
        htr1 (Bus.run_zero _) (Bus.after_zero _) (dmaLive_zero _)
      obtain ⟨r4, a4, l4⟩ := dma_triple e1 rfl (by omega) htr htr1 (by omega) r1 a1 l1
      exact ⟨4, _, _, b.totalSystemCycles + 4, r4, a4, l4, rfl, hcopy, rfl⟩
  | succ j ih =>
    intro hj b htr hd ha hp hv hc hm hprg h6 hlt
    have hU32 : U32MOD = 4294967296 := rfl
    have haLe : b.dmaAddr + 1 ≤ 255 := by omega
    have haddr16 : (b.dmaPage <<< 8) ||| b.dmaAddr ≤ 0xFFFF :=
      dma_addr_le16 b.dmaPage b.dmaAddr hp (by omega)
    obtain ⟨v, b1, hread, pv, pc, pm, pcart, ptr, pdu, pad, ppg, pt⟩ :=
      busCpuRead_total b ((b.dmaPage <<< 8) ||| b.dmaAddr) haddr16 hv hc hm hprg
    have htr1 : b1.dmaTransfer = true := by rw [ptr]; exact htr
    have hd1 : b1.dmaDummy = false := by rw [pdu]; exact hd
    have e1 := tick_read_raw b b1 v (by omega) htr hd (by omega) hread
    rw [pt, Nat.mod_eq_of_lt (show b.totalSystemCycles + 1 < U32MOD by omega)] at e1
    have hw8 : u8wrapAdd b.dmaAddr 1 = b.dmaAddr + 1 := by
      simp only [u8wrapAdd]
      omega
    by_cases hwx : b.totalSystemCycles = U32MOD - 4
    · -- the round that crosses the u32 wrap: 4 ticks, next read slot at 0
      have e4 := tick_write_mid_wrap
        ({ b1 with dmaData := v, totalSystemCycles := b.totalSystemCycles + 3 } : Bus)
        (show b.totalSystemCycles + 3 = U32MOD - 1 by omega)
        htr1 hd1
        (show b1.dmaAddr + 1 ≤ 255 by omega)
      obtain ⟨n1, bf, bx1, t2, hrun, hafter, hlive, haf0, hcopy1, hchar⟩ :=
        ih (by omega)
          ({ b1 with
             dmaData := v,
             ppu := { b1.ppu with oamData := fun i => if i = b1.dmaAddr then v else b1.ppu.oamData i },
             dmaAddr := b1.dmaAddr + 1,
             totalSystemCycles := 0 } : Bus)
          htr1 hd1
          (show b1.dmaAddr + 1 = 255 - j by omega)
          (show b1.dmaPage ≤ 255 by rw [ppg]; exact hp)
          (show b1.ppu.vram.length = 2048 by rw [pv]; exact hv)
          (show b1.ppu.chrRom.length = 8192 by rw [pc]; exact hc)
          (show b1.ppu.mirror = Mirror.horizontal ∨ b1.ppu.mirror = Mirror.vertical by
            rw [pm]; exact hm)
          (show (if b1.cart.mapper.numPrgBanks > 1 then 0x7FFF else 0x3FFF) < b1.cart.prgRom.length by
            rw [pcart]; exact hprg)
          (show (0 : Nat) % 6 = 0 from by decide)
          (show (0 : Nat) < U32MOD from by decide)
      have e2 := tick_skip ({ b1 with dmaData := v, totalSystemCycles := b.totalSystemCycles + 1 } : Bus)
        (show ¬ (b.totalSystemCycles + 1) % 3 = 0 by omega)
        (show b.totalSystemCycles + 1 + 1 < U32MOD by omega)
      have e3 := tick_skip ({ b1 with dmaData := v, totalSystemCycles := b.totalSystemCycles + 2 } : Bus)
        (show ¬ (b.totalSystemCycles + 2) % 3 = 0 by omega)
        (show b.totalSystemCycles + 2 + 1 < U32MOD by omega)
      have rr1 := run_step_slot (show (b.totalSystemCycles + 3) % 3 = 0 by omega) e4 hrun
      have rr2 := run_step_skip (show ¬ (b.totalSystemCycles + 2) % 3 = 0 by omega) e3 rr1
      have rr3 := run_step_skip (show ¬ (b.totalSystemCycles + 1) % 3 = 0 by omega) e2 rr2
      have rr4 := run_step_slot (by omega) e1 rr3
      have aa1 := after_step e4 hafter
      have aa2 := after_step e3 aa1
      have aa3 := after_step e2 aa2
      have aa4 := after_step e1 aa3
      have ll1 := dmaLive_succ e4 htr1 hlive
      have ll2 := dmaLive_succ e3 htr1 ll1
      have ll3 := dmaLive_succ e2 htr1 ll2
      have ll4 := dmaLive_succ e1 htr ll3
      have hcopy2 : dmaCopy (j + 1)
          ({ ({ b1 with
               dmaData := v,
               ppu := { b1.ppu with oamData := fun i => if i = b1.dmaAddr then v else b1.ppu.oamData i },
               dmaAddr := b1.dmaAddr + 1 } : Bus) with
             dmaDummy := ({ b1 with
               dmaData := v,
               ppu := { b1.ppu with oamData := fun i => if i = b1.dmaAddr then v else b1.ppu.oamData i },
               dmaAddr := b1.dmaAddr + 1 } : Bus).dmaDummy,
             totalSystemCycles := 0 } : Bus) = some bx1 := hcopy1
      rw [dmaCopy_shift] at hcopy2
      obtain ⟨bx, hbx, hfx⟩ := map_eq_some_bus hcopy2
      have hfx2 : ({ bx with
          dmaDummy := ({ b1 with
            dmaData := v,
            ppu := { b1.ppu with oamData := fun i => if i = b1.dmaAddr then v else b1.ppu.oamData i },
            dmaAddr := b1.dmaAddr + 1 } : Bus).dmaDummy,
          totalSystemCycles := 0 } : Bus) = bx1 := hfx
      rw [← hfx2] at hchar
      rw [pad] at hbx
      have hcopyfull : dmaCopy (j + 1 + 1) b = some bx := by
        rw [dmaCopy_step (j + 1) b b1 v hread, hw8]
        exact hbx
      refine ⟨n1 + 1 + 1 + 1 + 1, bf, bx, t2, ?_, aa4, ll4, haf0, hcopyfull, ?_⟩
      · rw [show 2 * (j + 1) + 2 = 1 + (1 + (2 * j + 2)) by omega]
        exact rr4
      · exact hchar
    · -- an ordinary round: 6 ticks
      have e4 := tick_write_mid
        ({ b1 with dmaData := v, totalSystemCycles := b.totalSystemCycles + 3 } : Bus)
        (show (b.totalSystemCycles + 3) % 3 = 0 by omega)
        htr1 hd1
        (show (b.totalSystemCycles + 3) % 2 = 1 by omega)
        (show b1.dmaAddr + 1 ≤ 255 by omega)
        (show b.totalSystemCycles + 3 + 1 < U32MOD by omega)
      obtain ⟨n1, bf, bx1, t2, hrun, hafter, hlive, haf0, hcopy1, hchar⟩ :=
        ih (by omega)
          ({ b1 with
             dmaData := v,
             ppu := { b1.ppu with oamData := fun i => if i = b1.dmaAddr then v else b1.ppu.oamData i },
             dmaAddr := b1.dmaAddr + 1,
             totalSystemCycles := b.totalSystemCycles + 6 } : Bus)
          htr1 hd1
          (show b1.dmaAddr + 1 = 255 - j by omega)
          (show b1.dmaPage ≤ 255 by rw [ppg]; exact hp)
          (show b1.ppu.vram.length = 2048 by rw [pv]; exact hv)
          (show b1.ppu.chrRom.length = 8192 by rw [pc]; exact hc)
          (show b1.ppu.mirror = Mirror.horizontal ∨ b1.ppu.mirror = Mirror.vertical by
            rw [pm]; exact hm)
          (show (if b1.cart.mapper.numPrgBanks > 1 then 0x7FFF else 0x3FFF) < b1.cart.prgRom.length by
            rw [pcart]; exact hprg)
          (show (b.totalSystemCycles + 6) % 6 = 0 by omega)
          (show b.totalSystemCycles + 6 < U32MOD by omega)
      obtain ⟨r2, a2, l2⟩ := dma_triple e4 rfl
        (show (b.totalSystemCycles + 3) % 3 = 0 by omega)
        htr1 htr1
        (show b.totalSystemCycles + 3 + 3 < U32MOD by omega)
        hrun hafter hlive
      obtain ⟨r1, a1, l1⟩ := dma_triple e1 rfl (by omega) htr htr1 (by omega) r2 a2 l2
      have hcopy2 : dmaCopy (j + 1)
          ({ ({ b1 with
               dmaData := v,
               ppu := { b1.ppu with oamData := fun i => if i = b1.dmaAddr then v else b1.ppu.oamData i },
               dmaAddr := b1.dmaAddr + 1 } : Bus) with
             dmaDummy := ({ b1 with
               dmaData := v,
               ppu := { b1.ppu with oamData := fun i => if i = b1.dmaAddr then v else b1.ppu.oamData i },
               dmaAddr := b1.dmaAddr + 1 } : Bus).dmaDummy,
             totalSystemCycles := b.totalSystemCycles + 6 } : Bus) = some bx1 := hcopy1
      rw [dmaCopy_shift] at hcopy2
      obtain ⟨bx, hbx, hfx⟩ := map_eq_some_bus hcopy2
      have hfx2 : ({ bx with
          dmaDummy := ({ b1 with
            dmaData := v,
            ppu := { b1.ppu with oamData := fun i => if i = b1.dmaAddr then v else b1.ppu.oamData i },
            dmaAddr := b1.dmaAddr + 1 } : Bus).dmaDummy,
          totalSystemCycles := b.totalSystemCycles + 6 } : Bus) = bx1 := hfx
      rw [← hfx2] at hchar
      rw [pad] at hbx
      have hcopyfull : dmaCopy (j + 1 + 1) b = some bx := by
        rw [dmaCopy_step (j + 1) b b1 v hread, hw8]
        exact hbx
      refine ⟨n1 + 3 + 3, bf, bx, t2, ?_, a1, l1, haf0, hcopyfull, ?_⟩
      · rw [show 2 * (j + 1) + 2 = 1 + (1 + (2 * j + 2)) by omega]
        exact r1
      · exact hchar

theorem dma_dummy_phase (b : Bus)
    (htr : b.dmaTransfer = true) (hd : b.dmaDummy = true)
    (h3 : b.totalSystemCycles % 3 = 0) (hlt : b.totalSystemCycles < U32MOD) :
    ∃ nd sd td,
      (sd = 1 ∧ b.totalSystemCycles % 2 = 1 ∨ sd = 2 ∧ b.totalSystemCycles % 2 = 0)
      ∧ td % 6 = 0 ∧ td < U32MOD
      ∧ b.run nd = some ({ b with dmaDummy := false, totalSystemCycles := td }, sd, true)
      ∧ b.after nd = some { b with dmaDummy := false, totalSystemCycles := td }
      ∧ b.dmaLive nd := by
  have hU32 : U32MOD = 4294967296 := rfl
  by_cases h2 : b.totalSystemCycles % 2 = 1
  · by_cases hw : b.totalSystemCycles = U32MOD - 1
    · have e1 := tick_dummy_odd_wrap b hw htr hd
      refine ⟨1, 1, 0, Or.inl ⟨rfl, h2⟩, by decide, by decide, ?_, ?_, ?_⟩
      · exact run_step_slot h3 e1 (Bus.run_zero _)
      · exact after_step e1 (Bus.after_zero _)
      · exact dmaLive_succ e1 htr (dmaLive_zero _)
    · have e1 := tick_dummy_odd b h3 htr hd h2 (show b.totalSystemCycles + 1 < U32MOD by omega)
      obtain ⟨hr, ha', hl⟩ := dma_triple e1 rfl h3 htr htr
        (show b.totalSystemCycles + 3 < U32MOD by omega)
        (Bus.run_zero _) (Bus.after_zero _) (dmaLive_zero _)
      exact ⟨3, 1, b.totalSystemCycles + 3, Or.inl ⟨rfl, h2⟩, by omega, by omega, hr, ha', hl⟩
  · have h2' : b.totalSystemCycles % 2 = 0 := by omega
    by_cases hw : b.totalSystemCycles = U32MOD - 4
    · have e1 := tick_dummy_even b h3 htr hd h2' (show b.totalSystemCycles + 1 < U32MOD by omega)
      have e4 := tick_dummy_odd_wrap ({ b with totalSystemCycles := b.totalSystemCycles + 3 } : Bus)
        (show b.totalSystemCycles + 3 = U32MOD - 1 by omega) htr hd
      have e2 := tick_skip ({ b with totalSystemCycles := b.totalSystemCycles + 1 } : Bus)
        (show ¬ (b.totalSystemCycles + 1) % 3 = 0 by omega)
        (show b.totalSystemCycles + 1 + 1 < U32MOD by omega)
      have e3 := tick_skip ({ b with totalSystemCycles := b.totalSystemCycles + 2 } : Bus)
        (show ¬ (b.totalSystemCycles + 2) % 3 = 0 by omega)
        (show b.totalSystemCycles + 2 + 1 < U32MOD by omega)
      have rr1 := run_step_slot (show (b.totalSystemCycles + 3) % 3 = 0 by omega) e4 (Bus.run_zero _)
      have rr2 := run_step_skip (show ¬ (b.totalSystemCycles + 2) % 3 = 0 by omega) e3 rr1
      have rr3 := run_step_skip (show ¬ (b.totalSystemCycles + 1) % 3 = 0 by omega) e2 rr2
      have rr4 := run_step_slot h3 e1 rr3
      have aa1 := after_step e4 (Bus.after_zero _)
      have aa2 := after_step e3 aa1
      have aa3 := after_step e2 aa2
      have aa4 := after_step e1 aa3
      have ll1 := dmaLive_succ e4 htr (dmaLive_zero _)
      have ll2 := dmaLive_succ e3 htr ll1
      have ll3 := dmaLive_succ e2 htr ll2
      have ll4 := dmaLive_succ e1 htr ll3
      exact ⟨4, 2, 0, Or.inr ⟨rfl, h2'⟩, by decide, by decide, rr4, aa4, ll4⟩
    · have e1 := tick_dummy_even b h3 htr hd h2' (show b.totalSystemCycles + 1 < U32MOD by omega)
      have e4 := tick_dummy_odd ({ b with totalSystemCycles := b.totalSystemCycles + 3 } : Bus)
        (show (b.totalSystemCycles + 3) % 3 = 0 by omega) htr hd
        (show (b.totalSystemCycles + 3) % 2 = 1 by omega)
        (show b.totalSystemCycles + 3 + 1 < U32MOD by omega)
      obtain ⟨r2, a2, l2⟩ := dma_triple e4 rfl
        (show (b.totalSystemCycles + 3) % 3 = 0 by omega) htr htr
        (show b.totalSystemCycles + 3 + 3 < U32MOD by omega)
        (Bus.run_zero _) (Bus.after_zero _) (dmaLive_zero _)
      obtain ⟨r1, a1, l1⟩ := dma_triple e1 rfl h3 htr htr
        (show b.totalSystemCycles + 3 < U32MOD by omega) r2 a2 l2
      exact ⟨6, 2, b.totalSystemCycles + 6, Or.inr ⟨rfl, h2'⟩, by omega, by omega, r1, a1, l1⟩

/-- C2: after a $4014 write has armed the DMA engine (transfer on,
dummy-wait on, low address byte 0) — for every page value — the ensuing
OAM DMA consumes exactly 513 or 514 CPU cycles (ticks falling on a CPU
slot, `total_system_cycles % 3 = 0`), every tick of the span tells the
CPU not to execute, the transfer is still in progress after every proper
prefix of the span, and the run ends with the engine off and the low
address byte wrapped to 0, the final bus being exactly the result of
`dmaCopy 256` — the claim's in-order copy of the 256 bytes of the chosen
CPU page into OAM indices 0-255 — with only the engine flags and the
cycle counter updated on top.  The hypotheses are representation
invariants of the source state: `dma_page` is a `u8`, the cycle counter a
`u32` (any value, including those at which it wraps during the run), the
PPU's VRAM is its 2 KiB array, and the loaded cartridge is well formed (a
CHR bank present, two-nametable mirroring, PRG-ROM matching its bank
count) so that no DMA read indexes a `Vec` out of bounds. -/
theorem oam_dma_cycles (b : Bus)
    (htr : b.dmaTransfer = true) (hd : b.dmaDummy = true) (ha : b.dmaAddr = 0)
    (hpage : b.dmaPage ≤ 255)
    (hlt : b.totalSystemCycles < U32MOD)
    (hv : b.ppu.vram.length = 2048) (hc : b.ppu.chrRom.length = 8192)
    (hm : b.ppu.mirror = Mirror.horizontal ∨ b.ppu.mirror = Mirror.vertical)
    (hprg : (if b.cart.mapper.numPrgBanks > 1 then 0x7FFF else 0x3FFF) < b.cart.prgRom.length) :
    ∃ n s bf bx t2, (s = 513 ∨ s = 514) ∧ b.run n = some (bf, s, true)
      ∧ bf.dmaAddr = 0
      ∧ dmaCopy 256 b = some bx
      ∧ bf = { bx with dmaTransfer := false, dmaDummy := true, totalSystemCycles := t2 }
      ∧ ∀ m, m < n → ∃ bm, b.after m = some bm ∧ bm.dmaTransfer = true := by
  have hU32 : U32MOD = 4294967296 := rfl
  have main : ∀ c : Bus, c.dmaTransfer = true → c.dmaDummy = true → c.dmaAddr = 0 →
      c.dmaPage ≤ 255 → c.ppu.vram.length = 2048 → c.ppu.chrRom.length = 8192 →
      (c.ppu.mirror = Mirror.horizontal ∨ c.ppu.mirror = Mirror.vertical) →
      (if c.cart.mapper.numPrgBanks > 1 then 0x7FFF else 0x3FFF) < c.cart.prgRom.length →
      c.totalSystemCycles % 3 = 0 → c.totalSystemCycles < U32MOD →
      ∃ n s bf bx t2, (s = 513 ∨ s = 514) ∧ c.run n = some (bf, s, true)
        ∧ c.dmaLive n
        ∧ bf.dmaAddr = 0
        ∧ dmaCopy 256 c = some bx
        ∧ bf = { bx with dmaTransfer := false, dmaDummy := true, totalSystemCycles := t2 } := by
    intro c htr' hd' ha' hp' hv' hc' hm' hprg' h3' hlt'
    obtain ⟨nd, sd, td, hsd, htd6, htdlt, dr, da, dl⟩ := dma_dummy_phase c htr' hd' h3' hlt'
    obtain ⟨n1, bf, bx1, t2, hrun, hafter, hlive, haf0, hcopy1, hchar⟩ :=
      dma_transfer_phase 255 (by omega)
        ({ c with dmaDummy := false, totalSystemCycles := td } : Bus)
        htr' rfl ha' hp' hv' hc' hm' hprg' htd6 htdlt
    have hcopy2 : dmaCopy 256
        ({ c with dmaDummy := false, totalSystemCycles := td } : Bus) = some bx1 := hcopy1
    rw [dmaCopy_shift] at hcopy2
    obtain ⟨bx, hbx, hfx⟩ := map_eq_some_bus hcopy2
    have hfx2 : ({ bx with dmaDummy := false, totalSystemCycles := td } : Bus) = bx1 := hfx
    rw [← hfx2] at hchar
    rcases hsd with ⟨rfl, hodd⟩ | ⟨rfl, heven⟩
    · refine ⟨nd + n1, 513, bf, bx, t2, Or.inl rfl, ?_, ?_, haf0, hbx, hchar⟩
      · exact Bus.run_append nd n1 c _ bf 1 (2 * 255 + 2) true true dr hrun
      · exact dmaLive_append dl da hlive
    · refine ⟨nd + n1, 514, bf, bx, t2, Or.inr rfl, ?_, ?_, haf0, hbx, hchar⟩
      · exact Bus.run_append nd n1 c _ bf 2 (2 * 255 + 2) true true dr hrun
      · exact dmaLive_append dl da hlive
  rcases (show b.totalSystemCycles % 3 = 0 ∨ b.totalSystemCycles % 3 = 1
      ∨ b.totalSystemCycles % 3 = 2 from by omega) with hr0 | hr1 | hr2
  · obtain ⟨n, s, bf, bx, t2, hs, hrun, hlive, haf0, hcopy, hchar⟩ :=
      main b htr hd ha hpage hv hc hm hprg hr0 hlt
    exact ⟨n, s, bf, bx, t2, hs, hrun, haf0, hcopy, hchar, hlive⟩
  · have e1 := tick_skip b (by omega) (show b.totalSystemCycles + 1 < U32MOD by omega)
    have e2 := tick_skip ({ b with totalSystemCycles := b.totalSystemCycles + 1 } : Bus)
      (show ¬ (b.totalSystemCycles + 1) % 3 = 0 by omega)
      (show b.totalSystemCycles + 1 + 1 < U32MOD by omega)
    obtain ⟨n, s, bf, bx1, t2, hs, hrun, hlive, haf0, hcopy1, hchar⟩ :=
      main ({ b with totalSystemCycles := b.totalSystemCycles + 2 } : Bus)
        htr hd ha hpage hv hc hm hprg
        (show (b.totalSystemCycles + 2) % 3 = 0 by omega)
        (show b.totalSystemCycles + 2 < U32MOD by omega)
    have hcopy2 : dmaCopy 256
        ({ b with dmaDummy := b.dmaDummy, totalSystemCycles := b.totalSystemCycles + 2 } : Bus)
        = some bx1 := hcopy1
    rw [dmaCopy_shift] at hcopy2
    obtain ⟨bx, hbx, hfx⟩ := map_eq_some_bus hcopy2
    have hfx2 : ({ bx with
        dmaDummy := b.dmaDummy,
        totalSystemCycles := b.totalSystemCycles + 2 } : Bus) = bx1 := hfx
    rw [← hfx2] at hchar
    refine ⟨n + 1 + 1, s, bf, bx, t2, hs, ?_, haf0, hbx, hchar, ?_⟩
    · exact run_step_skip (by omega) e1
        (run_step_skip (show ¬ (b.totalSystemCycles + 1) % 3 = 0 by omega) e2 hrun)
    · exact dmaLive_succ e1 htr (dmaLive_succ e2 htr hlive)
  · have e1 := tick_skip b (by omega) (show b.totalSystemCycles + 1 < U32MOD by omega)
    obtain ⟨n, s, bf, bx1, t2, hs, hrun, hlive, haf0, hcopy1, hchar⟩ :=
      main ({ b with totalSystemCycles := b.totalSystemCycles + 1 } : Bus)
        htr hd ha hpage hv hc hm hprg
        (show (b.totalSystemCycles + 1) % 3 = 0 by omega)
        (show b.totalSystemCycles + 1 < U32MOD by omega)
    have hcopy2 : dmaCopy 256
        ({ b with dmaDummy := b.dmaDummy, totalSystemCycles := b.totalSystemCycles + 1 } : Bus)
        = some bx1 := hcopy1
    rw [dmaCopy_shift] at hcopy2
    obtain ⟨bx, hbx, hfx⟩ := map_eq_some_bus hcopy2
    have hfx2 : ({ bx with
        dmaDummy := b.dmaDummy,
        totalSystemCycles := b.totalSystemCycles + 1 } : Bus) = bx1 := hfx
    rw [← hfx2] at hchar
    refine ⟨n + 1, s, bf, bx, t2, hs, ?_, haf0, hbx, hchar, ?_⟩
    · exact run_step_skip (by omega) e1 hrun
    · exact dmaLive_succ e1 htr hlive

/-- A mapper-0 cartridge with full-size one-bank PRG-ROM and one CHR bank,
as `Cartridge::new` would produce them. -/
def cartC2 : Cartridge :=
  ⟨0, ⟨1, 1⟩, .horizontal, 1, 1, List.replicate 0x4000 0, List.replicate 8192 0⟩

/-- A concrete bus ready to start an OAM DMA from CPU page $02, with a
recognisable RAM pattern. -/
def busC2 : Bus :=
  { cpuRam := fun i => (i + 7) % 256,
    cart := cartC2,
    ppu := ppu0,
    joypad1 := Joypad.new,
    joypad2 := Joypad.new,
    totalSystemCycles := 0,
    dmaPage := 2,
    dmaAddr := 0,
    dmaData := 0,
    dmaDummy := true,
    dmaTransfer := true }

/-- Witness for C2 at `busC2`. -/
theorem oam_dma_cycles_witness :
    busC2.dmaTransfer = true ∧ busC2.dmaDummy = true ∧ busC2.dmaAddr = 0
    ∧ busC2.dmaPage ≤ 255 ∧ busC2.totalSystemCycles < U32MOD
    ∧ busC2.ppu.vram.length = 2048 ∧ busC2.ppu.chrRom.length = 8192
    ∧ (busC2.ppu.mirror = Mirror.horizontal ∨ busC2.ppu.mirror = Mirror.vertical)
    ∧ (if busC2.cart.mapper.numPrgBanks > 1 then 0x7FFF else 0x3FFF) < busC2.cart.prgRom.length
    ∧ ∃ n s bf bx t2, (s = 513 ∨ s = 514) ∧ busC2.run n = some (bf, s, true)
      ∧ bf.dmaAddr = 0
      ∧ dmaCopy 256 busC2 = some bx
      ∧ bf = { bx with dmaTransfer := false, dmaDummy := true, totalSystemCycles := t2 }
      ∧ ∀ m, m < n → ∃ bm, busC2.after m = some bm ∧ bm.dmaTransfer = true :=
  ⟨rfl, rfl, rfl, by decide, by decide,
   (by
     have h : busC2.ppu.vram = List.replicate 2048 (0 : Nat) := rfl
     rw [h, List.length_replicate]),
   (by
     have h : busC2.ppu.chrRom = List.replicate 8192 (0 : Nat) := rfl
     rw [h, List.length_replicate]),
   Or.inl rfl,
   (by
     have h : busC2.cart.prgRom = List.replicate 0x4000 (0 : Nat) := rfl
     have h2 : busC2.cart.mapper.numPrgBanks = 1 := rfl
     rw [h, h2, List.length_replicate]
     norm_num),
   oam_dma_cycles busC2 rfl rfl rfl (by decide) (by decide)
     (by
       have h : busC2.ppu.vram = List.replicate 2048 (0 : Nat) := rfl
       rw [h, List.length_replicate])
     (by
       have h : busC2.ppu.chrRom = List.replicate 8192 (0 : Nat) := rfl
       rw [h, List.length_replicate])
     (Or.inl rfl)
     (by
       have h : busC2.cart.prgRom = List.replicate 0x4000 (0 : Nat) := rfl
       have h2 : busC2.cart.mapper.numPrgBanks = 1 := rfl
       rw [h, h2, List.length_replicate]
       norm_num)⟩

end Nes
